import Mathlib

/-!
# Verification of the solana-tss HTTP signing service

A shallow embedding of the two source files `src/main.rs` and `src/models.rs`
of the `solana-tss-cli-to-api` repository, together with models of the
repository modules that are declared in `main.rs` but whose sources are
absent (`tss`, `serialization`, `spl_token_utils`, `error`); those are
modelled from the specification and marked as such in their doc comments.

Machine integers are `Nat` with explicit reductions; Rust `f64` values are
embedded as exact dyadic significand/exponent pairs with IEEE-754 binary64
round-to-nearest-even semantics, so that every floating-point step of the
source (`sol_to_lamports`, the SPL amount scaling) is computed exactly.
-/

deriving instance DecidableEq for Except

namespace SolanaTss

/-! ## Bit-level helpers -/

/-- Fuel-driven bit length: `bitLenAux fuel n` counts the binary digits of
`n`, recursing on `fuel`.  With `fuel ≥ n` the fuel never runs out because
`n` halves at each step. -/
def bitLenAux : Nat → Nat → Nat
  | 0, _ => 0
  | _ + 1, 0 => 0
  | fuel + 1, n + 1 => bitLenAux fuel ((n + 1) / 2) + 1

/-- Number of binary digits of `n` (`0` for `n = 0`). -/
def bitLen (n : Nat) : Nat := bitLenAux n n

theorem bitLenAux_eq (fuel n : Nat) (h : n ≤ fuel) :
    bitLenAux fuel n = if n = 0 then 0 else bitLenAux (fuel - 1) (n / 2) + 1 := by
  match fuel, n with
  | 0, n =>
    have hn : n = 0 := by omega
    subst hn; simp [bitLenAux]
  | fuel + 1, 0 => simp [bitLenAux]
  | fuel + 1, n + 1 => simp [bitLenAux]

theorem bitLenAux_mono (fuel fuel₂ n : Nat) (h : n ≤ fuel) (h₂ : fuel ≤ fuel₂) :
    bitLenAux fuel₂ n = bitLenAux fuel n := by
  induction fuel₂ generalizing fuel n with
  | zero =>
    have hf : fuel = 0 := by omega
    subst hf; rfl
  | succ f ih =>
    match n with
    | 0 => cases fuel <;> simp [bitLenAux]
    | n + 1 =>
      match fuel with
      | 0 => omega
      | fuel + 1 =>
        simp only [bitLenAux]
        exact congrArg (· + 1) (ih fuel ((n + 1) / 2) (by omega) (by omega))

theorem bitLen_succ (n : Nat) (h : n ≠ 0) : bitLen n = bitLen (n / 2) + 1 := by
  unfold bitLen
  rw [bitLenAux_eq n n le_rfl, if_neg h]
  match n with
  | n + 1 =>
    exact congrArg (· + 1) (bitLenAux_mono ((n + 1) / 2) n ((n + 1) / 2) le_rfl (by omega))

/-- Little-endian byte list of length `len` for the value `n % 256^len`. -/
def natToLeBytes (len n : Nat) : List Nat :=
  (List.range len).map fun i => n / 256 ^ i % 256

/-- The eight little-endian bytes of a `u64` value, as Rust `to_le_bytes`. -/
def u64le (n : Nat) : List Nat := natToLeBytes 8 n

/-- Little-endian interpretation of a byte list. -/
def leBytesToNat (bs : List Nat) : Nat :=
  bs.foldr (fun b acc => b + 256 * acc) 0

/-! ## Exact model of IEEE-754 binary64 (`f64`)

Rust `f64` values and operations are embedded exactly: a finite double is a
signed dyadic rational `(-1)^neg * m * 2^e`, and arithmetic rounds the exact
result to 53 significand bits with round-to-nearest, ties-to-even, spilling
to infinity past the exponent range and to subnormals below it, exactly as
IEEE-754 binary64 prescribes. -/

inductive F64 where
  | finite (neg : Bool) (m : Nat) (e : Int)
  | inf (neg : Bool)
  | nan
  deriving DecidableEq, Repr

namespace F64

/-- Round the exact value `(-1)^neg * m * 2^e` to the nearest binary64
(ties to even), producing a subnormal or an infinity at the range ends. -/
def roundFinite (neg : Bool) (m : Nat) (e : Int) : F64 :=
  if m = 0 then .finite neg 0 0
  else
    let b : Int := (bitLen m : Int) - 1
    let bigE : Int := b + e
    let pos : Int := max (bigE - 52) (-1074)
    let drop : Int := pos - e
    if drop ≤ 0 then
      if bigE > 1023 then .inf neg
      else .finite neg (m * 2 ^ (-drop).toNat) pos
    else
      let d := drop.toNat
      let q := m / 2 ^ d
      let r := m % 2 ^ d
      let half := 2 ^ (d - 1)
      let q₂ := if half < r ∨ (r = half ∧ q % 2 = 1) then q + 1 else q
      if (bitLen q₂ : Int) - 1 + pos > 1023 then .inf neg
      else .finite neg q₂ pos

/-- The binary64 nearest to the natural number `n` (exact for `n < 2^53`). -/
def ofNat (n : Nat) : F64 := roundFinite false n 0

/-- IEEE-754 binary64 multiplication. -/
def mul : F64 → F64 → F64
  | nan, _ => nan
  | _, nan => nan
  | inf s, inf t => inf (xor s t)
  | inf s, finite t m _ => if m = 0 then nan else inf (xor s t)
  | finite s m _, inf t => if m = 0 then nan else inf (xor s t)
  | finite s m e, finite t n f => roundFinite (xor s t) (m * n) (e + f)

/-- Rust `as u64` cast of an `f64`: truncate toward zero and saturate;
negative values and NaN give `0`, positive overflow gives `u64::MAX`. -/
def toU64 : F64 → Nat
  | nan => 0
  | inf true => 0
  | inf false => 2 ^ 64 - 1
  | finite neg m e =>
    if neg ∧ m ≠ 0 then 0
    else
      let v := if 0 ≤ e then m * 2 ^ e.toNat else m / 2 ^ (-e).toNat
      min v (2 ^ 64 - 1)

/-- Fuel-driven square-and-multiply loop backing `powi`. -/
def powiAux : Nat → F64 → Nat → F64 → F64
  | 0, _, _, acc => acc
  | _ + 1, _, 0, acc => acc
  | fuel + 1, base, n + 1, acc =>
    let acc₂ := if (n + 1) % 2 = 1 then mul acc base else acc
    powiAux fuel (mul base base) ((n + 1) / 2) acc₂

/-- Rust `f64::powi` for a non-negative exponent, expanded to the standard
square-and-multiply chain of correctly rounded multiplications.  (Rust does
not pin the exact rounding sequence of `powi`; every use in this
development keeps all intermediates exactly representable, where any
multiplication chain agrees.) -/
def powi (x : F64) (n : Nat) : F64 := powiAux n x n (ofNat 1)

end F64

/-! ## Byte strings and their lexicographic order

`solana_sdk::pubkey::Pubkey` is a 32-byte array; its `Ord` instance (used
by the `BTreeMap` inside message compilation, and by the key sort of the
aggregator) is byte-wise lexicographic. -/

abbrev Pubkey := List Nat

/-- Byte-wise lexicographic `≤` on byte strings (Rust `Ord` on byte
arrays; a strict prefix sorts first). -/
def lexLe : List Nat → List Nat → Bool
  | [], _ => true
  | _ :: _, [] => false
  | a :: as, b :: bs => if a < b then true else if b < a then false else lexLe as bs

/-- `lexLe` as a relation. -/
def LexLeP (as bs : List Nat) : Prop := lexLe as bs = true

instance : DecidableRel LexLeP := fun as bs => instDecidableEqBool (lexLe as bs) true

theorem lexLe_iff : ∀ as bs : List Nat,
    lexLe as bs = true ↔ as = bs ∨ List.Lex (· < ·) as bs
  | [], bs => by
    cases bs with
    | nil => simp [lexLe]
    | cons b bs => simp only [lexLe, true_iff]; exact Or.inr List.Lex.nil
  | a :: as, [] => by
    simp only [lexLe, Bool.false_eq_true, false_iff]
    rintro (h | h)
    · exact List.noConfusion h
    · exact List.Lex.not_nil_right _ _ h
  | a :: as, b :: bs => by
    simp only [lexLe]
    rcases lt_trichotomy a b with h | h | h
    · simp only [if_pos h, true_iff]
      exact Or.inr (List.Lex.rel h)
    · subst h
      rw [if_neg (lt_irrefl a), if_neg (lt_irrefl a), lexLe_iff as bs]
      constructor
      · rintro (rfl | hl)
        · exact Or.inl rfl
        · exact Or.inr (List.Lex.cons hl)
      · rintro (heq | hl)
        · exact Or.inl (by injection heq)
        · cases hl with
          | cons h => exact Or.inr h
          | rel h => exact absurd h (lt_irrefl a)
    · rw [if_neg (by omega), if_pos h]
      simp only [Bool.false_eq_true, false_iff]
      rintro (heq | hl)
      · injection heq with h₁ h₂; omega
      · cases hl with
        | cons h₂ => exact absurd h (lt_irrefl a)
        | rel h₂ => omega

instance : IsTotal (List Nat) LexLeP where
  total as bs := by
    unfold LexLeP
    rcases @trichotomous (List Nat) (List.Lex (· < ·)) _ as bs with h | h | h
    · exact Or.inl ((lexLe_iff _ _).2 (Or.inr h))
    · exact Or.inl ((lexLe_iff _ _).2 (Or.inl h))
    · exact Or.inr ((lexLe_iff _ _).2 (Or.inr h))

instance : IsTrans (List Nat) LexLeP where
  trans as bs cs h₁ h₂ := by
    unfold LexLeP at *
    rw [lexLe_iff] at *
    rcases h₁ with rfl | h₁
    · exact h₂
    · rcases h₂ with rfl | h₂
      · exact Or.inr h₁
      · exact Or.inr (IsTrans.trans _ _ _ h₁ h₂)

instance : IsAntisymm (List Nat) LexLeP where
  antisymm as bs h₁ h₂ := by
    unfold LexLeP at *
    rw [lexLe_iff] at *
    rcases h₁ with rfl | h₁
    · rfl
    · rcases h₂ with rfl | h₂
      · rfl
      · exact absurd h₂ (IsAsymm.asymm _ _ h₁)

/-! ## Solana message model (`solana_sdk` collaborators)

The parts of `solana_sdk` that `main.rs` calls: instructions, legacy
`Message::new` compilation (`CompiledKeys`), unsigned transactions and
their wire serialization. -/

structure AccountMeta where
  pubkey : Pubkey
  isSigner : Bool
  isWritable : Bool
  deriving DecidableEq, Repr

structure Instruction where
  programId : Pubkey
  accounts : List AccountMeta
  data : List Nat
  deriving DecidableEq, Repr

structure MessageHeader where
  numRequiredSignatures : Nat
  numReadonlySignedAccounts : Nat
  numReadonlyUnsignedAccounts : Nat
  deriving DecidableEq, Repr

structure CompiledInstruction where
  programIdIndex : Nat
  accounts : List Nat
  data : List Nat
  deriving DecidableEq, Repr

structure Message where
  header : MessageHeader
  accountKeys : List Pubkey
  recentBlockhash : List Nat
  instructions : List CompiledInstruction
  deriving DecidableEq, Repr

structure Transaction where
  signatures : List (List Nat)
  message : Message
  deriving DecidableEq, Repr

/-- Every key mentioned by the instruction list: each instruction
contributes its program id and its account metas (`CompiledKeys::compile`
inserts exactly these into its `BTreeMap`). -/
def mentionedKeys (ixs : List Instruction) : List Pubkey :=
  ixs.flatMap fun ix => ix.programId :: ix.accounts.map (·.pubkey)

/-- A key is a signer if some account meta for it sets `is_signer` (the
`BTreeMap` or-assigns the flag across occurrences). -/
def keyIsSigner (ixs : List Instruction) (k : Pubkey) : Bool :=
  ixs.any fun ix => ix.accounts.any fun m => decide (m.pubkey = k) && m.isSigner

/-- A key is writable if some account meta for it sets `is_writable`. -/
def keyIsWritable (ixs : List Instruction) (k : Pubkey) : Bool :=
  ixs.any fun ix => ix.accounts.any fun m => decide (m.pubkey = k) && m.isWritable

/-- Distinct keys in `BTreeMap` iteration order: sorted byte-wise. -/
def sortedKeySet (ks : List Pubkey) : List Pubkey :=
  List.insertionSort LexLeP ks.dedup

/-- The non-payer keys of the compiled message
(`CompiledKeys::try_into_message_components` removes the payer from the
map before partitioning). -/
def compiledRest (ixs : List Instruction) (payer : Pubkey) : List Pubkey :=
  (sortedKeySet (payer :: mentionedKeys ixs)).filter fun k => decide (k ≠ payer)

/-- Writable signers other than the payer, sorted. -/
def wsKeys (ixs : List Instruction) (payer : Pubkey) : List Pubkey :=
  (compiledRest ixs payer).filter fun k => keyIsSigner ixs k && keyIsWritable ixs k

/-- Readonly signers, sorted. -/
def rsKeys (ixs : List Instruction) (payer : Pubkey) : List Pubkey :=
  (compiledRest ixs payer).filter fun k => keyIsSigner ixs k && !keyIsWritable ixs k

/-- Writable non-signers, sorted. -/
def wnKeys (ixs : List Instruction) (payer : Pubkey) : List Pubkey :=
  (compiledRest ixs payer).filter fun k => !keyIsSigner ixs k && keyIsWritable ixs k

/-- Readonly non-signers, sorted. -/
def rnKeys (ixs : List Instruction) (payer : Pubkey) : List Pubkey :=
  (compiledRest ixs payer).filter fun k => !keyIsSigner ixs k && !keyIsWritable ixs k

/-- The static account keys of the compiled message: the fee payer first,
then the four sorted partitions (`CompiledKeys`: writable signers,
readonly signers, writable non-signers, readonly non-signers). -/
def accountKeysFor (ixs : List Instruction) (payer : Pubkey) : List Pubkey :=
  payer :: (wsKeys ixs payer ++ rsKeys ixs payer ++ wnKeys ixs payer ++ rnKeys ixs payer)

/-- Compile one instruction: replace the program id and each account by its
index in the static key list; the data passes through unchanged. -/
def compileIx (keys : List Pubkey) (ix : Instruction) : CompiledInstruction :=
  { programIdIndex := keys.indexOf ix.programId
    accounts := ix.accounts.map fun m => keys.indexOf m.pubkey
    data := ix.data }

/-- `solana_sdk::message::Message::new(instructions, Some(payer))`: compile
the account keys, build the header, compile the instructions; the recent
blockhash starts as `Hash::default()` (32 zero bytes). -/
def Message.new (ixs : List Instruction) (payer : Pubkey) : Message :=
  { header :=
      { numRequiredSignatures := 1 + (wsKeys ixs payer).length + (rsKeys ixs payer).length
        numReadonlySignedAccounts := (rsKeys ixs payer).length
        numReadonlyUnsignedAccounts := (rnKeys ixs payer).length }
    accountKeys := accountKeysFor ixs payer
    recentBlockhash := List.replicate 32 0
    instructions := ixs.map (compileIx (accountKeysFor ixs payer)) }

/-- `Transaction::new_unsigned`: one all-zero 64-byte signature slot per
required signer. -/
def Transaction.newUnsigned (msg : Message) : Transaction :=
  { signatures := List.replicate msg.header.numRequiredSignatures (List.replicate 64 0)
    message := msg }

/-- Fuel-driven short-vec (compact-u16) encoder body. -/
def compactU16Aux : Nat → Nat → List Nat
  | 0, _ => []
  | fuel + 1, n => if n < 128 then [n] else (n % 128 + 128) :: compactU16Aux fuel (n / 128)

/-- Solana short-vec (compact-u16) length encoding. -/
def compactU16 (n : Nat) : List Nat := compactU16Aux (n + 1) n

/-- Wire serialization of a compiled message (bincode short-vec framing):
header bytes, key count and keys, blockhash, instruction count and
compiled instructions. -/
def serializeMessage (m : Message) : List Nat :=
  [m.header.numRequiredSignatures, m.header.numReadonlySignedAccounts,
    m.header.numReadonlyUnsignedAccounts]
    ++ compactU16 m.accountKeys.length ++ m.accountKeys.flatten
    ++ m.recentBlockhash
    ++ compactU16 m.instructions.length
    ++ (m.instructions.flatMap fun ci =>
        ci.programIdIndex :: (compactU16 ci.accounts.length ++ ci.accounts
          ++ compactU16 ci.data.length ++ ci.data))

/-! ## UTF-8 (Rust `String::into_bytes`) -/

/-- UTF-8 encoding of one scalar value, as Rust `String` bytes. -/
def utf8Char (c : Char) : List Nat :=
  let n := c.toNat
  if n < 0x80 then [n]
  else if n < 0x800 then [0xC0 + n / 64, 0x80 + n % 64]
  else if n < 0x10000 then [0xE0 + n / 4096, 0x80 + n / 64 % 64, 0x80 + n % 64]
  else [0xF0 + n / 262144, 0x80 + n / 4096 % 64, 0x80 + n / 64 % 64, 0x80 + n % 64]

/-- The UTF-8 bytes of a string (`String::into_bytes`). -/
def utf8Bytes (s : String) : List Nat := s.data.flatMap utf8Char

/-! ## `create_unsigned_transaction` (`src/main.rs:41-61`) -/

/-- The system program id: 32 zero bytes. -/
def systemProgramId : Pubkey := List.replicate 32 0

/-- `spl_memo::id()`, the base58 decoding of
`MemoSq4gqABAXKb96qnH8TysNcWxMyWCqXgDLGmfcHr`. -/
def memoProgramId : Pubkey :=
  [5, 74, 83, 90, 153, 41, 33, 6, 77, 36, 232, 113, 96, 218, 56, 124, 124,
   53, 181, 221, 188, 146, 187, 129, 228, 31, 168, 64, 65, 5, 68, 141]

/-- bincode encoding of `SystemInstruction::Transfer { lamports }`: the
variant tag `2` as little-endian `u32`, then the lamports as `u64`. -/
def transferData (lamports : Nat) : List Nat := [2, 0, 0, 0] ++ u64le lamports

/-- `solana_sdk::system_instruction::transfer(from, to, lamports)`. -/
def systemTransfer (fromKey toKey : Pubkey) (lamports : Nat) : Instruction :=
  { programId := systemProgramId
    accounts := [⟨fromKey, true, true⟩, ⟨toKey, false, true⟩]
    data := transferData lamports }

/-- `solana_sdk::native_token::sol_to_lamports(sol)`:
`(sol * LAMPORTS_PER_SOL as f64) as u64`. -/
def solToLamports (amount : F64) : Nat :=
  (amount.mul (F64.ofNat 1000000000)).toU64

/-- `create_unsigned_transaction(amount, to, memo, payer)` from
`src/main.rs:41-61`: scale the amount, build the system transfer, append a
memo instruction (memo program id, no accounts, raw UTF-8 bytes) when a
memo is given, and return the unsigned transaction. -/
def create_unsigned_transaction (amount : F64) (toKey : Pubkey)
    (memo : Option String) (payer : Pubkey) : Transaction :=
  let lamports := solToLamports amount
  let transferIns := systemTransfer payer toKey lamports
  let msg := match memo with
    | none => Message.new [transferIns] payer
    | some m =>
      let memoIns : Instruction :=
        { programId := memoProgramId, accounts := [], data := utf8Bytes m }
      Message.new [transferIns, memoIns] payer
  Transaction.newUnsigned msg

/-! ## Base58 (the `bs58` crate) -/

/-- The Bitcoin base58 alphabet used by `bs58`. -/
def b58Alphabet : List Char :=
  "123456789ABCDEFGHJKLMNPQRSTUVWXYZabcdefghijkmnopqrstuvwxyz".data

/-- `bs58::decode::Error` (the variants reachable from `into_vec`). -/
inductive Bs58Error where
  | invalidCharacter (character : Char) (index : Nat)
  | nonAsciiCharacter (index : Nat)
  deriving DecidableEq, Repr

/-- Big-number accumulation over the base58 digits, reporting the first
offending character with its index as `bs58` does. -/
def bs58DecodeAux : List Char → Nat → Nat → Except Bs58Error Nat
  | [], _, acc => .ok acc
  | c :: cs, i, acc =>
    if 128 ≤ c.toNat then .error (.nonAsciiCharacter i)
    else
      match b58Alphabet.findIdx? (· = c) with
      | none => .error (.invalidCharacter c i)
      | some d => bs58DecodeAux cs (i + 1) (acc * 58 + d)

/-- Fuel-driven big-endian byte expansion of a `Nat`. -/
def natToBeBytesAux : Nat → Nat → List Nat
  | 0, _ => []
  | fuel + 1, n => if n = 0 then [] else natToBeBytesAux fuel (n / 256) ++ [n % 256]

/-- Big-endian bytes of `n`, no leading zero byte. -/
def natToBeBytes (n : Nat) : List Nat := natToBeBytesAux n n

/-- Count of leading `'1'` digits (each encodes one zero byte). -/
def countLeadingOnes : List Char → Nat
  | [] => 0
  | c :: cs => if c = '1' then countLeadingOnes cs + 1 else 0

/-- `bs58::decode(s).into_vec()`. -/
def bs58Decode (s : String) : Except Bs58Error (List Nat) := do
  let v ← bs58DecodeAux s.data 0 0
  .ok (List.replicate (countLeadingOnes s.data) 0 ++ natToBeBytes v)

/-- Big-endian interpretation of a byte list. -/
def beBytesToNat (bs : List Nat) : Nat := bs.foldl (fun acc b => acc * 256 + b) 0

/-- Fuel-driven base58 digit expansion of a `Nat`. -/
def natToB58Aux : Nat → Nat → List Char
  | 0, _ => []
  | fuel + 1, n => if n = 0 then [] else natToB58Aux fuel (n / 58) ++ [b58Alphabet.getD (n % 58) '1']

/-- Count of leading zero bytes. -/
def countLeadingZeroBytes : List Nat → Nat
  | [] => 0
  | b :: bs => if b = 0 then countLeadingZeroBytes bs + 1 else 0

/-- `bs58::encode(bytes).into_string()`. -/
def bs58Encode (bs : List Nat) : String :=
  let n := beBytesToNat bs
  String.mk (List.replicate (countLeadingZeroBytes bs) '1' ++ natToB58Aux n n)

/-! ## The `error` module

`src/error.rs` is declared by `main.rs` but absent from the sources.
Modelled from the spec: §7 lists the core error kinds (`BadEncoding`,
`InvalidPoint`, `InvalidScalar`, `DuplicateKey`, `MismatchedParticipants`,
`StaleWitness`, `InvalidAggregation`, `PayloadError`) and the distinct
pass-through kinds for RPC failures; `main.rs` names the constructors
`BadBase58` (wrapping a `bs58::decode::Error`), `BalaceFailed`,
`AirdropFailed`, `RecentHashFailed`, `SendTransactionFailed` and
`ConfirmingTransactionFailed`, plus a conversion for keypair byte errors. -/
inductive Error where
  | badBase58 (e : Bs58Error)
  | badKeypairBytes
  | wrongSize
  | invalidPoint
  | invalidScalar
  | duplicateKeys
  | mismatchedParticipants
  | staleWitness
  | invalidAggregation
  | payloadError (msg : String)
  | balaceFailed (msg : String)
  | airdropFailed (msg : String)
  | recentHashFailed (msg : String)
  | sendTransactionFailed (msg : String)
  | confirmingTransactionFailed (msg : String)
  deriving DecidableEq, Repr

/-- Modelled from the spec: the `Display` rendering done by the absent
`error.rs`; §7 only requires that every error surfaces verbatim as some
message string, so the exact wording is a model choice. -/
def Error.toMessage : Error → String
  | .badBase58 (.invalidCharacter c i) =>
    "bad base58: invalid character " ++ String.mk [c] ++ " at " ++ toString i
  | .badBase58 (.nonAsciiCharacter i) => "bad base58: non-ascii character at " ++ toString i
  | .badKeypairBytes => "bad keypair bytes"
  | .wrongSize => "wrong size"
  | .invalidPoint => "invalid point"
  | .invalidScalar => "invalid scalar"
  | .duplicateKeys => "duplicate keys"
  | .mismatchedParticipants => "mismatched participants"
  | .staleWitness => "stale witness"
  | .invalidAggregation => "invalid aggregation"
  | .payloadError msg => "payload error: " ++ msg
  | .balaceFailed msg => "balance failed: " ++ msg
  | .airdropFailed msg => "airdrop failed: " ++ msg
  | .recentHashFailed msg => "recent hash failed: " ++ msg
  | .sendTransactionFailed msg => "send transaction failed: " ++ msg
  | .confirmingTransactionFailed msg => "confirming transaction failed: " ++ msg

/-! ## Parsers (`src/main.rs:63-84`) -/

/-- `solana_sdk::pubkey::ParsePubkeyError`. -/
inductive ParsePubkeyError where
  | wrongSize
  | invalid
  deriving DecidableEq, Repr

/-- `Pubkey::from_str`: strings longer than the max base58 length of 44
are rejected, then the base58 decoding must be exactly 32 bytes. -/
def pubkeyFromStr (s : String) : Except ParsePubkeyError Pubkey :=
  if 44 < s.length then .error .wrongSize
  else
    match bs58Decode s with
    | .error _ => .error .invalid
    | .ok v => if v.length ≠ 32 then .error .wrongSize else .ok v

/-- `Hash::from_str` (`ParseHashError` collapsed to a unit): same shape,
max base58 length 44, decoded length must be 32. -/
def hashFromStr (s : String) : Except Unit (List Nat) :=
  if 44 < s.length then .error ()
  else
    match bs58Decode s with
    | .error _ => .error ()
    | .ok v => if v.length ≠ 32 then .error () else .ok v

/-- `parse_pubkey` (`src/main.rs:68-75`): any `Pubkey::from_str` failure is
replaced by the fixed value
`Error::BadBase58(InvalidCharacter { character: ' ', index: 0 })`. -/
def parse_pubkey (s : String) : Except Error Pubkey :=
  (pubkeyFromStr s).mapError fun _ => Error.badBase58 (.invalidCharacter ' ' 0)

/-- `parse_hash` (`src/main.rs:77-84`): any `Hash::from_str` failure is
replaced by the same fixed `BadBase58` value as `parse_pubkey`. -/
def parse_hash (s : String) : Except Error (List Nat) :=
  (hashFromStr s).mapError fun _ => Error.badBase58 (.invalidCharacter ' ' 0)

/-- `ed25519_dalek::Keypair`: a 32-byte secret seed and the 32-byte
compressed public point. -/
structure Keypair where
  secret : List Nat
  pubkey : Pubkey
  deriving DecidableEq, Repr

/-- `Keypair::from_bytes`: exactly 64 bytes, secret half then public half.
(The Edwards-point decompression validity check performed by
`ed25519_dalek` on the public half is outside this embedding; the length
discipline is modelled.) -/
def keypairFromBytes (bytes : List Nat) : Except Error Keypair :=
  if bytes.length ≠ 64 then .error .badKeypairBytes
  else .ok ⟨bytes.take 32, bytes.drop 32⟩

/-- `parse_keypair_bs58` (`src/main.rs:63-66`): base58-decode (propagating
the real `bs58` error, unlike `parse_pubkey`), then `Keypair::from_bytes`. -/
def parse_keypair_bs58 (s : String) : Except Error Keypair := do
  let decoded ← (bs58Decode s).mapError Error.badBase58
  keypairFromBytes decoded

/-! ## SHA-512

The hash behind the aggregation coefficients, the nonce binding and the
Ed25519 challenge (spec §4.2–§4.4, §9).  Words are `Nat` reduced mod
`2^64` explicitly. -/

/-- Reduce to a 64-bit word. -/
def w64 (n : Nat) : Nat := n % 2 ^ 64

/-- 64-bit rotate right. -/
def rotr64 (x n : Nat) : Nat := w64 (x / 2 ^ n + x * 2 ^ (64 - n))

def sha512K : List Nat :=
  [4794697086780616226, 8158064640168781261, 13096744586834688815, 16840607885511220156,
   4131703408338449720, 6480981068601479193, 10538285296894168987, 12329834152419229976,
   15566598209576043074, 1334009975649890238, 2608012711638119052, 6128411473006802146,
   8268148722764581231, 9286055187155687089, 11230858885718282805, 13951009754708518548,
   16472876342353939154, 17275323862435702243, 1135362057144423861, 2597628984639134821,
   3308224258029322869, 5365058923640841347, 6679025012923562964, 8573033837759648693,
   10970295158949994411, 12119686244451234320, 12683024718118986047, 13788192230050041572,
   14330467153632333762, 15395433587784984357, 489312712824947311, 1452737877330783856,
   2861767655752347644, 3322285676063803686, 5560940570517711597, 5996557281743188959,
   7280758554555802590, 8532644243296465576, 9350256976987008742, 10552545826968843579,
   11727347734174303076, 12113106623233404929, 14000437183269869457, 14369950271660146224,
   15101387698204529176, 15463397548674623760, 17586052441742319658, 1182934255886127544,
   1847814050463011016, 2177327727835720531, 2830643537854262169, 3796741975233480872,
   4115178125766777443, 5681478168544905931, 6601373596472566643, 7507060721942968483,
   8399075790359081724, 8693463985226723168, 9568029438360202098, 10144078919501101548,
   10430055236837252648, 11840083180663258601, 13761210420658862357, 14299343276471374635,
   14566680578165727644, 15097957966210449927, 16922976911328602910, 17689382322260857208,
   500013540394364858, 748580250866718886, 1242879168328830382, 1977374033974150939,
   2944078676154940804, 3659926193048069267, 4368137639120453308, 4836135668995329356,
   5532061633213252278, 6448918945643986474, 6902733635092675308, 7801388544844847127]

def sha512IV : List Nat :=
  [7640891576956012808, 13503953896175478587, 4354685564936845355, 11912009170470909681,
   5840696475078001361, 11170449401992604703, 2270897969802886507, 6620516959819538809]

/-- Big-endian bytes of a 64-bit word. -/
def w64beBytes (n : Nat) : List Nat := (List.range 8).map fun i => n / 256 ^ (7 - i) % 256

/-- SHA-512 padding: `0x80`, zeros, and the bit length as 16 big-endian
bytes, to a multiple of 128 bytes. -/
def sha512Pad (msg : List Nat) : List Nat :=
  let len := msg.length
  let zeros := (128 - (len + 17) % 128) % 128
  msg ++ 128 :: List.replicate zeros 0
    ++ (List.range 16).map fun i => len * 8 / 256 ^ (15 - i) % 256

/-- Parse one 128-byte block into 16 big-endian 64-bit words. -/
def sha512Words (block : List Nat) : List Nat :=
  (block.toChunks 8).map fun c => c.foldl (fun acc b => acc * 256 + b) 0

/-- Extend 16 message words to the 80-word schedule. -/
def sha512Schedule (ws : List Nat) : List Nat :=
  (List.range 64).foldl
    (fun ws _ =>
      let n := ws.length
      let s0 :=
        let x := ws.getD (n - 15) 0
        rotr64 x 1 ^^^ rotr64 x 8 ^^^ x / 2 ^ 7
      let s1 :=
        let x := ws.getD (n - 2) 0
        rotr64 x 19 ^^^ rotr64 x 61 ^^^ x / 2 ^ 6
      ws ++ [w64 (ws.getD (n - 16) 0 + s0 + ws.getD (n - 7) 0 + s1)])
    ws

/-- One compression round. -/
def sha512Round (st : List Nat) (kw : Nat × Nat) : List Nat :=
  match st with
  | [a, b, c, d, e, f, g, h] =>
    let bigS1 := rotr64 e 14 ^^^ rotr64 e 18 ^^^ rotr64 e 41
    let ch := e &&& f ^^^ (2 ^ 64 - 1 - e) &&& g
    let t1 := w64 (h + bigS1 + ch + kw.1 + kw.2)
    let bigS0 := rotr64 a 28 ^^^ rotr64 a 34 ^^^ rotr64 a 39
    let maj := a &&& b ^^^ a &&& c ^^^ b &&& c
    let t2 := w64 (bigS0 + maj)
    [w64 (t1 + t2), a, b, c, w64 (d + t1), e, f, g]
  | st => st

/-- Compress one block into the running state. -/
def sha512Block (st : List Nat) (block : List Nat) : List Nat :=
  let w := sha512Schedule (sha512Words block)
  let out := (sha512K.zip w).foldl sha512Round st
  List.zipWith (fun x y => w64 (x + y)) st out

/-- SHA-512 of a byte string, as 64 bytes. -/
def sha512 (msg : List Nat) : List Nat :=
  (((sha512Pad msg).toChunks 128).foldl sha512Block sha512IV).flatMap w64beBytes

/-! ## The `tss` key aggregator

`src/tss.rs` is declared by `main.rs` but absent from the sources; the
definitions below are modelled from the spec (§4.2, §3).  The Ed25519
curve sum `X̃ = Σᵢ aᵢ·Xᵢ` is represented formally: the aggregated key is
the list of `(coefficient, point)` pairs enumerated in sorted key order —
a canonical representative of the multiset sum, which determines the curve
point because the group is abelian.  Curve arithmetic itself stays
external to the embedding. -/

/-- The Ed25519 group order ℓ. -/
def groupOrder : Nat := 2 ^ 252 + 27742317777372353535851937790883648493

/-- Modelled from the spec: the fixed 32-byte domain-separation label of
`H_agg` (§4.2 requires one, distinct from the other two hashes; its actual
byte value lives in the absent `tss.rs`, so a placeholder value is used). -/
def aggHashLabel : List Nat := List.replicate 32 1

/-- `H_agg(L ‖ X) mod ℓ`: SHA-512 with the aggregation label, the digest
reduced little-endian modulo the group order. -/
def hAgg (input : List Nat) : Nat :=
  leBytesToNat (sha512 (aggHashLabel ++ input)) % groupOrder

/-- Modelled from the spec (§4.2): `key_agg` sorts the 32-byte serialized
keys lexicographically, concatenates them into `L`, gives participant `i`
the coefficient `aᵢ = H_agg(L ‖ Xᵢ) mod ℓ`, and returns `X̃ = Σᵢ aᵢ·Xᵢ`
(here: its canonical formal representative).  Duplicate keys are rejected
with `DuplicateKey`. -/
def key_agg (keys : List Pubkey) : Except Error (List (Nat × Pubkey)) :=
  if ¬ keys.Nodup then .error .duplicateKeys
  else
    let sorted := List.insertionSort LexLeP keys
    let bigL := sorted.flatten
    .ok (sorted.map fun k => (hAgg (bigL ++ k), k))

/-- Serialization of the formal aggregated point used where the source
compresses `X̃` to 32 bytes (`agg_public_key.to_bytes(true)`); point
compression is external, so the canonical pair list is flattened instead. -/
def aggPointBytes (p : List (Nat × Pubkey)) : List Nat :=
  p.flatMap fun ck => natToLeBytes 32 ck.1 ++ ck.2

/-! ## `src/models.rs` -/

/-- `models::Network` (`src/models.rs:5-9`). -/
inductive Network where
  | mainnet
  | testnet
  | devnet
  deriving DecidableEq, Repr

/-- `Network::get_cluster_url` (`src/models.rs:12-18`): a total match on
the three variants, returning fixed URLs. -/
def Network.get_cluster_url : Network → String
  | .mainnet => "https://api.mainnet-beta.solana.com"
  | .testnet => "https://api.testnet.solana.com"
  | .devnet => "https://api.devnet.solana.com"

structure BalanceRequest where
  address : String
  net : Network

structure AirdropRequest where
  toAddr : String
  amount : F64
  net : Network

structure SendSingleRequest where
  keypair : String
  amount : F64
  toAddr : String
  net : Network
  memo : Option String

structure AggregateKeysRequest where
  keys : List String

structure AggSendStepOneRequest where
  keypair : String

structure AggSendStepTwoRequest where
  keypair : String
  amount : F64
  toAddr : String
  memo : Option String
  recentBlockHash : String
  keys : List String
  firstMessages : List String
  secretState : String

structure AggregateSignaturesRequest where
  signatures : List String
  amount : F64
  toAddr : String
  memo : Option String
  recentBlockHash : String
  net : Network
  keys : List String

structure SplTokenBalanceRequest where
  owner : String
  tokenMint : String
  net : Network

structure SplSendSingleRequest where
  keypair : String
  amount : F64
  toAddr : String
  tokenMint : String
  decimals : Nat
  net : Network
  memo : Option String

structure SplAggSendStepTwoRequest where
  keypair : String
  amount : F64
  toAddr : String
  tokenMint : String
  decimals : Nat
  memo : Option String
  recentBlockHash : String
  keys : List String
  firstMessages : List String
  secretState : String

structure SplAggregateSignaturesRequest where
  signatures : List String
  amount : F64
  toAddr : String
  tokenMint : String
  decimals : Nat
  memo : Option String
  recentBlockHash : String
  net : Network
  keys : List String

/-! ## JSON bodies (`serde_json::to_string`) -/

/-- Two lowercase hex digits of a byte. -/
def hexByte (n : Nat) : String :=
  let digit := fun d => String.mk [Char.ofNat (if d < 10 then 48 + d else 87 + d)]
  digit (n / 16 % 16) ++ digit (n % 16)

/-- `serde_json` escaping of one character: quote, backslash, the short
control escapes, `\u00XX` for the remaining control bytes. -/
def escapeJsonChar (c : Char) : String :=
  if c = Char.ofNat 34 then "\\\""
  else if c = Char.ofNat 92 then "\\\\"
  else if c = Char.ofNat 8 then "\\b"
  else if c = Char.ofNat 9 then "\\t"
  else if c = Char.ofNat 10 then "\\n"
  else if c = Char.ofNat 12 then "\\f"
  else if c = Char.ofNat 13 then "\\r"
  else if c.toNat < 32 then "\\u00" ++ hexByte c.toNat
  else String.mk [c]

/-- `serde_json` string-body escaping. -/
def escapeJson (s : String) : String :=
  s.data.foldl (fun acc c => acc ++ escapeJsonChar c) ""

/-- A JSON string literal. -/
def jsonStr (s : String) : String := "\"" ++ escapeJson s ++ "\""

/-- `poem::Response` as observed by a client: status code, content type
and body. -/
structure Response where
  status : Nat
  contentType : String
  body : String
  deriving DecidableEq, Repr

/-- `error_response` (`src/main.rs:87-93`): HTTP 400 with the
`serde_json` rendering of `ErrorResponse { error }`, a single-field JSON
object. -/
def error_response (error : String) : Response :=
  { status := 400
    contentType := "application/json"
    body := "\x7b\"error\":" ++ jsonStr error ++ "\x7d" }

/-- `success_response` (`src/main.rs:96-101`): HTTP 200 with the
serialized response value (each call site passes the `serde_json`
rendering of its response struct). -/
def success_response (json : String) : Response :=
  { status := 200, contentType := "application/json", body := json }

/-! ## RPC collaborator (`solana_client::rpc_client::RpcClient`)

The blockchain RPC client is external (spec §1, §6); handlers receive it
as an oracle and every call made is logged, so that "no RPC call was
performed" is the statement that the log is empty. -/

inductive RpcCall where
  | getBalance (k : Pubkey)
  | requestAirdrop (k : Pubkey) (lamports : Nat)
  | getLatestBlockhash
  | sendTransaction (tx : Transaction)
  | confirmTransaction (sig : String) (blockHash : List Nat)
  | getAccount (k : Pubkey)
  deriving DecidableEq, Repr

structure RpcEnv where
  getBalance : Pubkey → Except String Nat
  requestAirdrop : Pubkey → Nat → Except String String
  getLatestBlockhash : Except String (List Nat)
  sendTransaction : Transaction → Except String String
  confirmTransaction : String → List Nat → Except String Unit
  getAccount : Pubkey → Except String (List Nat)

/-! ## The `serialization` module

`src/serialization.rs` is absent from the sources; modelled from the spec
(§6): protocol objects are base58-framed byte strings — commitment
`X(32) ‖ D(32) ‖ E(32)`, witness `X(32) ‖ d(32) ‖ e(32)` with
little-endian scalars, partial signature a 32-byte little-endian scalar.
Scalars must be canonical (`< ℓ`, §7 `InvalidScalar`); the Edwards-point
validity of the 32-byte point fields is external curve arithmetic and not
modelled. -/

/-- Round-1 commitment `(X_self, D, E)`. -/
structure AggMessage1 where
  xSelf : List Nat
  bigD : List Nat
  bigE : List Nat
  deriving DecidableEq, Repr

/-- Round-1 secret state: the witness scalars with their public key. -/
structure SecretAggStepOne where
  xSelf : List Nat
  d : Nat
  e : Nat
  deriving DecidableEq, Repr

/-- A round-2 partial signature: one scalar. -/
structure PartialSignature where
  s : Nat
  deriving DecidableEq, Repr

def AggMessage1.serialize_bs58 (m : AggMessage1) : String :=
  bs58Encode (m.xSelf ++ m.bigD ++ m.bigE)

def AggMessage1.deserialize_bs58 (s : String) : Except Error AggMessage1 := do
  let bytes ← (bs58Decode s).mapError Error.badBase58
  if bytes.length ≠ 96 then .error .wrongSize
  else .ok ⟨bytes.take 32, (bytes.drop 32).take 32, bytes.drop 64⟩

def SecretAggStepOne.serialize_bs58 (w : SecretAggStepOne) : String :=
  bs58Encode (w.xSelf ++ natToLeBytes 32 w.d ++ natToLeBytes 32 w.e)

def SecretAggStepOne.deserialize_bs58 (s : String) : Except Error SecretAggStepOne := do
  let bytes ← (bs58Decode s).mapError Error.badBase58
  if bytes.length ≠ 96 then .error .wrongSize
  else
    let d := leBytesToNat ((bytes.drop 32).take 32)
    let e := leBytesToNat (bytes.drop 64)
    if groupOrder ≤ d ∨ groupOrder ≤ e then .error .invalidScalar
    else .ok ⟨bytes.take 32, d, e⟩

def PartialSignature.serialize_bs58 (p : PartialSignature) : String :=
  bs58Encode (natToLeBytes 32 p.s)

def PartialSignature.deserialize_bs58 (s : String) : Except Error PartialSignature := do
  let bytes ← (bs58Decode s).mapError Error.badBase58
  if bytes.length ≠ 32 then .error .wrongSize
  else
    let v := leBytesToNat bytes
    if groupOrder ≤ v then .error .invalidScalar
    else .ok ⟨v⟩

/-! ## The `tss` signing operations

`src/tss.rs` is absent from the sources; the operations below are
modelled from the spec (§4.3–§4.5, §3).  Curve arithmetic (basepoint
multiplication, point addition, compression) is external; wherever the
spec forms a point, the model uses a fixed deterministic stand-in byte
encoding of the defining data, which preserves every data-flow and
error-path property stated here. -/

/-- Stand-in for the 32-byte compression of `s·B`. -/
def scalarPointBytes (s : Nat) : List Nat := natToLeBytes 32 (s % groupOrder)

/-- Stand-in for the 32-byte compression of the aggregated point `X̃`
(the source's `agg_public_key.to_bytes(true)` digested to pubkey size). -/
def aggToPubkey (agg : List (Nat × Pubkey)) : Pubkey :=
  (sha512 (aggPointBytes agg)).take 32

/-- The Ed25519 secret scalar of a keypair (§3): SHA-512 of the 32-byte
seed, low 32 bytes clamped, read little-endian. -/
def secretScalar (kp : Keypair) : Nat :=
  let h := (sha512 kp.secret).take 32
  let clamped :=
    h.zipWith (fun b i =>
      if i = 0 then b - b % 8 else if i = 31 then b % 64 + 64 else b)
      (List.range 32)
  leBytesToNat clamped

/-- Modelled from the spec (§4.3): `step_one` draws two fresh scalars from
the OS CSPRNG (passed in explicitly as `rng`), reduces them mod ℓ and
commits `D = d·B`, `E = e·B`. -/
def step_one (kp : Keypair) (rng : Nat × Nat) : AggMessage1 × SecretAggStepOne :=
  let d := rng.1 % groupOrder
  let e := rng.2 % groupOrder
  (⟨kp.pubkey, scalarPointBytes d, scalarPointBytes e⟩, ⟨kp.pubkey, d, e⟩)

/-- Modelled from the spec: the fixed domain labels of the nonce-binding
hash `H_non` and the Ed25519 challenge hash `H_sig` (§9 requires three
distinct tags; the actual bytes live in the absent `tss.rs`). -/
def nonHashLabel : List Nat := List.replicate 32 2

def sigHashLabel : List Nat := List.replicate 32 3

/-- `H_non(·) mod ℓ`. -/
def hNon (input : List Nat) : Nat :=
  leBytesToNat (sha512 (nonHashLabel ++ input)) % groupOrder

/-- `H_sig(·) mod ℓ`. -/
def hSig (input : List Nat) : Nat :=
  leBytesToNat (sha512 (sigHashLabel ++ input)) % groupOrder

/-- The canonical message (§3, §4.1): the serialized unsigned message of
the transfer transaction with the fee payer set to the aggregated key and
the agreed recent blockhash substituted. -/
def canonicalMessage (amount : F64) (toKey : Pubkey) (memo : Option String)
    (blockHash : List Nat) (aggPk : Pubkey) : List Nat :=
  let tx := create_unsigned_transaction amount toKey memo aggPk
  serializeMessage { tx.message with recentBlockhash := blockHash }

/-- The concatenation `C` of all round-1 commitment pairs (§4.4). -/
def commitmentsBytes (firstMessages : List AggMessage1) : List Nat :=
  firstMessages.flatMap fun m => m.bigD ++ m.bigE

/-- Modelled from the spec (§4.4): `step_two` checks the witness against
the keypair (`StaleWitness`) and the keypair against the participant set
(`MismatchedParticipants`), aggregates the keys, binds the nonces to the
canonical message and returns the partial scalar
`d + b_self·e + c·a_self·x_self mod ℓ`. -/
def step_two (kp : Keypair) (amount : F64) (toKey : Pubkey) (memo : Option String)
    (blockHash : List Nat) (keys : List Pubkey) (firstMessages : List AggMessage1)
    (secret : SecretAggStepOne) : Except Error PartialSignature := do
  if secret.xSelf ≠ kp.pubkey then .error .staleWitness
  else if ¬ kp.pubkey ∈ keys then .error .mismatchedParticipants
  else do
    let agg ← key_agg keys
    let sorted := List.insertionSort LexLeP keys
    let aSelf := hAgg (sorted.flatten ++ kp.pubkey)
    let aggPk := aggToPubkey agg
    let msg := canonicalMessage amount toKey memo blockHash aggPk
    let c := commitmentsBytes firstMessages
    let idx := sorted.indexOf kp.pubkey
    let bSelf := hNon (aggPk ++ natToLeBytes 8 idx ++ msg ++ c)
    let challenge := hSig (sha512 c ++ aggPk ++ msg)
    .ok ⟨(secret.d + bSelf * secret.e + challenge * aSelf * secretScalar kp) % groupOrder⟩

/-- Modelled from the spec (§4.5): sum the partial scalars mod ℓ and place
the 64-byte signature into the fee-payer slot of the transfer transaction
(fee payer = aggregated key, blockhash substituted).  The aggregated nonce
`R` is recomputed from round-1 data held by the absent `tss.rs`; its 32
bytes are a stand-in here, and the `s·B = R + c·X̃` verification is
external curve arithmetic. -/
def sign_and_broadcast (amount : F64) (toKey : Pubkey) (memo : Option String)
    (blockHash : List Nat) (keys : List Pubkey) (sigs : List PartialSignature) :
    Except Error Transaction := do
  let agg ← key_agg keys
  if sigs.length ≠ keys.length then .error .mismatchedParticipants
  else
    let s := (sigs.foldl (fun acc p => acc + p.s) 0) % groupOrder
    let aggPk := aggToPubkey agg
    let tx := create_unsigned_transaction amount toKey memo aggPk
    .ok { tx with
          message := { tx.message with recentBlockhash := blockHash }
          signatures := [List.replicate 32 0 ++ natToLeBytes 32 s] }

/-! ## The `spl_token_utils` module

`src/spl_token_utils.rs` is absent from the sources; modelled from the
spec (§4.1): the token variant builds an optional create-associated-token-
account instruction for the recipient, then a checked token transfer of
`(amount_units, decimals)` between the two associated token accounts, plus
the optional memo; it is rejected when the recipient equals the fee payer
under the auto-created destination. -/

/-- `spl_token::id()`, base58 `TokenkegQfeZyiNwAJbNbGKPFXCWuBvf9Ss623VQ5DA`. -/
def tokenProgramId : Pubkey :=
  [6, 221, 246, 225, 215, 101, 161, 147, 217, 203, 225, 70, 206, 235, 121, 172,
   28, 180, 133, 237, 95, 91, 55, 145, 58, 140, 245, 133, 126, 255, 0, 169]

/-- `spl_associated_token_account::id()`, base58
`ATokenGPvbdGVxr1b2hvZbsiqW5xWH25efTNsLJA8knL`. -/
def ataProgramId : Pubkey :=
  [140, 151, 37, 143, 78, 36, 137, 241, 187, 61, 16, 41, 20, 142, 13, 131,
   11, 90, 19, 153, 218, 255, 16, 132, 4, 142, 123, 216, 219, 233, 248, 89]

/-- `get_associated_token_address(owner, mint)`: the program-derived
address (a SHA-256 bump search, external); modelled by a deterministic
32-byte digest of `(owner, mint)`. -/
def associatedTokenAddress (owner mint : Pubkey) : Pubkey :=
  (sha512 (owner ++ mint ++ ataProgramId)).take 32

/-- The token-unit scaling of `src/main.rs:454`:
`(req.amount * 10_f64.powi(req.decimals as i32)) as u64` — the IEEE-754
double product, truncated toward zero and saturated by the `as` cast. -/
def splTokenAmount (amount : F64) (decimals : Nat) : Nat :=
  (amount.mul (F64.powi (F64.ofNat 10) decimals)).toU64

/-- `spl_token::instruction::transfer_checked` data: tag `12`, the amount
as little-endian `u64`, the decimals byte. -/
def transferCheckedData (tokenAmount decimals : Nat) : List Nat :=
  12 :: u64le tokenAmount ++ [decimals]

/-- Modelled from the spec (§4.1): `create_spl_token_transaction` — fails
with `PayloadError` when the recipient equals the fee payer (destination
auto-creation disallowed), otherwise create-ATA for the recipient, checked
transfer between the sender and recipient associated token accounts, and
the optional memo instruction. -/
def create_spl_token_transaction (tokenAmount : Nat) (fromKey toKey mint payer : Pubkey)
    (memo : Option String) (decimals : Nat) : Except Error Transaction :=
  if toKey = payer then .error (.payloadError "recipient equals fee payer")
  else
    let fromAta := associatedTokenAddress fromKey mint
    let toAta := associatedTokenAddress toKey mint
    let createIx : Instruction :=
      { programId := ataProgramId
        accounts := [⟨payer, true, true⟩, ⟨toAta, false, true⟩, ⟨toKey, false, false⟩,
                     ⟨mint, false, false⟩, ⟨systemProgramId, false, false⟩,
                     ⟨tokenProgramId, false, false⟩]
        data := [] }
    let transferIx : Instruction :=
      { programId := tokenProgramId
        accounts := [⟨fromAta, false, true⟩, ⟨mint, false, false⟩, ⟨toAta, false, true⟩,
                     ⟨fromKey, true, false⟩]
        data := transferCheckedData tokenAmount decimals }
    let ixs := match memo with
      | none => [createIx, transferIx]
      | some m =>
        [createIx, transferIx,
         { programId := memoProgramId, accounts := [], data := utf8Bytes m }]
    .ok (Transaction.newUnsigned (Message.new ixs payer))

/-- The canonical message of the token transfer (for the SPL round-2 and
assembly paths). -/
def splCanonicalMessage (tokenAmount : Nat) (toKey mint aggPk : Pubkey)
    (memo : Option String) (decimals : Nat) (blockHash : List Nat) :
    Except Error (List Nat) := do
  let tx ← create_spl_token_transaction tokenAmount aggPk toKey mint aggPk memo decimals
  .ok (serializeMessage { tx.message with recentBlockhash := blockHash })

/-- Modelled from the spec (§4.4 with the §4.1 token payload):
`spl_step_two`. -/
def spl_step_two (kp : Keypair) (amount : F64) (toKey mint : Pubkey) (decimals : Nat)
    (memo : Option String) (blockHash : List Nat) (keys : List Pubkey)
    (firstMessages : List AggMessage1) (secret : SecretAggStepOne) :
    Except Error PartialSignature := do
  if secret.xSelf ≠ kp.pubkey then .error .staleWitness
  else if ¬ kp.pubkey ∈ keys then .error .mismatchedParticipants
  else do
    let agg ← key_agg keys
    let sorted := List.insertionSort LexLeP keys
    let aSelf := hAgg (sorted.flatten ++ kp.pubkey)
    let aggPk := aggToPubkey agg
    let tokenAmount := splTokenAmount amount decimals
    let msg ← splCanonicalMessage tokenAmount toKey mint aggPk memo decimals blockHash
    let c := commitmentsBytes firstMessages
    let idx := sorted.indexOf kp.pubkey
    let bSelf := hNon (aggPk ++ natToLeBytes 8 idx ++ msg ++ c)
    let challenge := hSig (sha512 c ++ aggPk ++ msg)
    .ok ⟨(secret.d + bSelf * secret.e + challenge * aSelf * secretScalar kp) % groupOrder⟩

/-- Modelled from the spec (§4.5 with the §4.1 token payload):
`spl_sign_and_broadcast`. -/
def spl_sign_and_broadcast (amount : F64) (toKey mint : Pubkey) (decimals : Nat)
    (memo : Option String) (blockHash : List Nat) (keys : List Pubkey)
    (sigs : List PartialSignature) : Except Error Transaction := do
  let agg ← key_agg keys
  if sigs.length ≠ keys.length then .error .mismatchedParticipants
  else
    let s := (sigs.foldl (fun acc p => acc + p.s) 0) % groupOrder
    let aggPk := aggToPubkey agg
    let tokenAmount := splTokenAmount amount decimals
    let tx ← create_spl_token_transaction tokenAmount aggPk toKey mint aggPk memo decimals
    .ok { tx with
          message := { tx.message with recentBlockhash := blockHash }
          signatures := [List.replicate 32 0 ++ natToLeBytes 32 s] }

/-! ## Response JSON bodies (per response struct, `serde` field order) -/

def generateKeypairJson (secretShare publicShare : String) : String :=
  "\x7b\"secret_share\":" ++ jsonStr secretShare
    ++ ",\"public_share\":" ++ jsonStr publicShare ++ "\x7d"

def balanceJson (address : String) (bal : Nat) : String :=
  "\x7b\"address\":" ++ jsonStr address ++ ",\"balance\":" ++ toString bal ++ "\x7d"

def transactionIdJson (txid : String) : String :=
  "\x7b\"transaction_id\":" ++ jsonStr txid ++ "\x7d"

def recentBlockHashJson (h : String) : String :=
  "\x7b\"recent_block_hash\":" ++ jsonStr h ++ "\x7d"

def aggregateKeysJson (k : String) : String :=
  "\x7b\"aggregated_public_key\":" ++ jsonStr k ++ "\x7d"

def stepOneJson (message1 secretState : String) : String :=
  "\x7b\"message_1\":" ++ jsonStr message1
    ++ ",\"secret_state\":" ++ jsonStr secretState ++ "\x7d"

def partialSignatureJson (p : String) : String :=
  "\x7b\"partial_signature\":" ++ jsonStr p ++ "\x7d"

def splTokenBalanceJson (owner tokenMint : String) (bal decimals : Nat) : String :=
  "\x7b\"owner\":" ++ jsonStr owner ++ ",\"token_mint\":" ++ jsonStr tokenMint
    ++ ",\"balance\":" ++ toString bal ++ ",\"decimals\":" ++ toString decimals ++ "\x7d"

/-! ## Handlers (`src/main.rs:103-629`)

Each handler is the function of its JSON request and the RPC oracle; the
second component logs the RPC calls made, in order.  `generate_keypair`
and `agg_send_step_one` additionally consume the OS CSPRNG, passed in
explicitly. -/

/-- `Transaction::sign(&[&keypair], recent_hash)`: substitute the
blockhash and fill the signature slot (the Ed25519 signature itself is
external curve arithmetic; a 64-byte keyed digest stands in). -/
def txSign (tx : Transaction) (kp : Keypair) (blockHash : List Nat) : Transaction :=
  let msg := { tx.message with recentBlockhash := blockHash }
  { message := msg, signatures := [sha512 (kp.secret ++ serializeMessage msg)] }

/-- `Keypair::generate(&mut rand07::thread_rng())`: a fresh 32-byte seed
from the OS CSPRNG; the public half is derived from the seed alone (§3). -/
def keypairGenerate (rng : List Nat) : Keypair :=
  let seed := rng.take 32
  { secret := seed, pubkey := scalarPointBytes (secretScalar ⟨seed, []⟩) }

/-- `generate_keypair` (`src/main.rs:103-111`): no request input; the
response publishes the base58 keypair and public key. -/
def generate_keypair (rng : List Nat) : Response × List RpcCall :=
  let keypair := keypairGenerate rng
  (success_response (generateKeypairJson
      (bs58Encode (keypair.secret ++ keypair.pubkey)) (bs58Encode keypair.pubkey)), [])

/-- `balance` (`src/main.rs:113-131`). -/
def balance (req : BalanceRequest) (env : RpcEnv) : Response × List RpcCall :=
  match parse_pubkey req.address with
  | .error e => (error_response e.toMessage, [])
  | .ok address =>
    match env.getBalance address with
    | .error e => (error_response (Error.balaceFailed e).toMessage, [.getBalance address])
    | .ok bal =>
      (success_response (balanceJson (bs58Encode address) bal), [.getBalance address])

/-- `airdrop` (`src/main.rs:133-163`). -/
def airdrop (req : AirdropRequest) (env : RpcEnv) : Response × List RpcCall :=
  match parse_pubkey req.toAddr with
  | .error e => (error_response e.toMessage, [])
  | .ok toKey =>
    let amount := solToLamports req.amount
    match env.requestAirdrop toKey amount with
    | .error e =>
      (error_response (Error.airdropFailed e).toMessage, [.requestAirdrop toKey amount])
    | .ok sig =>
      match env.getLatestBlockhash with
      | .error e =>
        (error_response (Error.recentHashFailed e).toMessage,
         [.requestAirdrop toKey amount, .getLatestBlockhash])
      | .ok recentHash =>
        match env.confirmTransaction sig recentHash with
        | .error e =>
          (error_response (Error.confirmingTransactionFailed e).toMessage,
           [.requestAirdrop toKey amount, .getLatestBlockhash,
            .confirmTransaction sig recentHash])
        | .ok _ =>
          (success_response (transactionIdJson sig),
           [.requestAirdrop toKey amount, .getLatestBlockhash,
            .confirmTransaction sig recentHash])

/-- `send_single` (`src/main.rs:165-202`). -/
def send_single (req : SendSingleRequest) (env : RpcEnv) : Response × List RpcCall :=
  match parse_keypair_bs58 req.keypair with
  | .error e => (error_response e.toMessage, [])
  | .ok keypair =>
    match parse_pubkey req.toAddr with
    | .error e => (error_response e.toMessage, [])
    | .ok toKey =>
      let tx := create_unsigned_transaction req.amount toKey req.memo keypair.pubkey
      match env.getLatestBlockhash with
      | .error e => (error_response (Error.recentHashFailed e).toMessage, [.getLatestBlockhash])
      | .ok recentHash =>
        let signed := txSign tx keypair recentHash
        match env.sendTransaction signed with
        | .error e =>
          (error_response (Error.sendTransactionFailed e).toMessage,
           [.getLatestBlockhash, .sendTransaction signed])
        | .ok sig =>
          match env.confirmTransaction sig recentHash with
          | .error e =>
            (error_response (Error.confirmingTransactionFailed e).toMessage,
             [.getLatestBlockhash, .sendTransaction signed, .confirmTransaction sig recentHash])
          | .ok _ =>
            (success_response (transactionIdJson sig),
             [.getLatestBlockhash, .sendTransaction signed, .confirmTransaction sig recentHash])

/-- `recent_block_hash` (`src/main.rs:204-216`). -/
def recent_block_hash (env : RpcEnv) : Response × List RpcCall :=
  match env.getLatestBlockhash with
  | .error e => (error_response (Error.recentHashFailed e).toMessage, [.getLatestBlockhash])
  | .ok recentHash =>
    (success_response (recentBlockHashJson (bs58Encode recentHash)), [.getLatestBlockhash])

/-- `aggregate_keys` (`src/main.rs:218-240`): parse every key, aggregate,
publish the base58 aggregated key; no RPC interaction at all. -/
def aggregate_keys (req : AggregateKeysRequest) : Response × List RpcCall :=
  match req.keys.mapM parse_pubkey with
  | .error e => (error_response e.toMessage, [])
  | .ok keys =>
    match key_agg keys with
    | .error e => (error_response e.toMessage, [])
    | .ok aggkey =>
      (success_response (aggregateKeysJson (bs58Encode (aggToPubkey aggkey))), [])

/-- `agg_send_step_one` (`src/main.rs:242-255`): parse the keypair, run
round 1 with fresh randomness, return the framed commitment and secret. -/
def agg_send_step_one (req : AggSendStepOneRequest) (rng : Nat × Nat) :
    Response × List RpcCall :=
  match parse_keypair_bs58 req.keypair with
  | .error e => (error_response e.toMessage, [])
  | .ok keypair =>
    let (firstMsg, secret) := step_one keypair rng
    (success_response (stepOneJson firstMsg.serialize_bs58 secret.serialize_bs58), [])

/-- `agg_send_step_two` (`src/main.rs:257-317`): decode every field in
source order, run round 2, return the framed partial signature; the
handler makes no RPC call on any path. -/
def agg_send_step_two (req : AggSendStepTwoRequest) : Response × List RpcCall :=
  match parse_keypair_bs58 req.keypair with
  | .error e => (error_response e.toMessage, [])
  | .ok keypair =>
    match parse_pubkey req.toAddr with
    | .error e => (error_response e.toMessage, [])
    | .ok toKey =>
      match parse_hash req.recentBlockHash with
      | .error e => (error_response e.toMessage, [])
      | .ok blockHash =>
        match req.keys.mapM parse_pubkey with
        | .error e => (error_response e.toMessage, [])
        | .ok keys =>
          match req.firstMessages.mapM AggMessage1.deserialize_bs58 with
          | .error e => (error_response e.toMessage, [])
          | .ok firstMessages =>
            match SecretAggStepOne.deserialize_bs58 req.secretState with
            | .error e => (error_response e.toMessage, [])
            | .ok secretState =>
              match step_two keypair req.amount toKey req.memo blockHash keys
                  firstMessages secretState with
              | .error e => (error_response e.toMessage, [])
              | .ok sig =>
                (success_response (partialSignatureJson sig.serialize_bs58), [])

/-- `aggregate_signatures` (`src/main.rs:319-379`): decode every field in
source order, assemble the final transaction, then broadcast and confirm. -/
def aggregate_signatures (req : AggregateSignaturesRequest) (env : RpcEnv) :
    Response × List RpcCall :=
  match parse_pubkey req.toAddr with
  | .error e => (error_response e.toMessage, [])
  | .ok toKey =>
    match parse_hash req.recentBlockHash with
    | .error e => (error_response e.toMessage, [])
    | .ok blockHash =>
      match req.keys.mapM parse_pubkey with
      | .error e => (error_response e.toMessage, [])
      | .ok keys =>
        match req.signatures.mapM PartialSignature.deserialize_bs58 with
        | .error e => (error_response e.toMessage, [])
        | .ok signatures =>
          match sign_and_broadcast req.amount toKey req.memo blockHash keys signatures with
          | .error e => (error_response e.toMessage, [])
          | .ok tx =>
            match env.sendTransaction tx with
            | .error e =>
              (error_response (Error.sendTransactionFailed e).toMessage, [.sendTransaction tx])
            | .ok sig =>
              match env.confirmTransaction sig blockHash with
              | .error e =>
                (error_response (Error.confirmingTransactionFailed e).toMessage,
                 [.sendTransaction tx, .confirmTransaction sig blockHash])
              | .ok _ =>
                (success_response (transactionIdJson sig),
                 [.sendTransaction tx, .confirmTransaction sig blockHash])

/-- `spl_token::state::Account::unpack` reduced to the balance field: the
packed account is 165 bytes with `amount` little-endian at offset 64. -/
def splAccountAmount (data : List Nat) : Except String Nat :=
  if data.length ≠ 165 then .error "invalid account data"
  else .ok (leBytesToNat ((data.drop 64).take 8))

/-- `spl_token::state::Mint::unpack` reduced to the decimals field: the
packed mint is 82 bytes with `decimals` at offset 44. -/
def splMintDecimals (data : List Nat) : Except String Nat :=
  if data.length ≠ 82 then .error "invalid account data"
  else .ok (data.getD 44 0)

/-- `spl_token_balance` (`src/main.rs:385-432`). -/
def spl_token_balance (req : SplTokenBalanceRequest) (env : RpcEnv) :
    Response × List RpcCall :=
  match parse_pubkey req.owner with
  | .error e => (error_response e.toMessage, [])
  | .ok owner =>
    match parse_pubkey req.tokenMint with
    | .error e => (error_response e.toMessage, [])
    | .ok tokenMint =>
      let tokenAccount := associatedTokenAddress owner tokenMint
      match env.getAccount tokenAccount with
      | .error _ => (error_response "Token account not found", [.getAccount tokenAccount])
      | .ok accountData =>
        match splAccountAmount accountData with
        | .error e =>
          (error_response ("Failed to parse token account: " ++ e),
           [.getAccount tokenAccount])
        | .ok bal =>
          match env.getAccount tokenMint with
          | .error _ =>
            (error_response "Token mint not found",
             [.getAccount tokenAccount, .getAccount tokenMint])
          | .ok mintData =>
            match splMintDecimals mintData with
            | .error e =>
              (error_response ("Failed to parse mint account: " ++ e),
               [.getAccount tokenAccount, .getAccount tokenMint])
            | .ok decimals =>
              (success_response (splTokenBalanceJson (bs58Encode owner)
                  (bs58Encode tokenMint) bal decimals),
               [.getAccount tokenAccount, .getAccount tokenMint])

/-- `spl_send_single` (`src/main.rs:434-491`): decode the keypair,
recipient and mint; scale the amount
(`(req.amount * 10_f64.powi(req.decimals as i32)) as u64`); build the
token transaction (which can fail before any RPC call); then fetch the
blockhash, sign, send, confirm. -/
def spl_send_single (req : SplSendSingleRequest) (env : RpcEnv) :
    Response × List RpcCall :=
  match parse_keypair_bs58 req.keypair with
  | .error e => (error_response e.toMessage, [])
  | .ok keypair =>
    match parse_pubkey req.toAddr with
    | .error e => (error_response e.toMessage, [])
    | .ok toKey =>
      match parse_pubkey req.tokenMint with
      | .error e => (error_response e.toMessage, [])
      | .ok tokenMint =>
        let tokenAmount := splTokenAmount req.amount req.decimals
        match create_spl_token_transaction tokenAmount keypair.pubkey toKey tokenMint
            keypair.pubkey req.memo req.decimals with
        | .error e => (error_response e.toMessage, [])
        | .ok tx =>
          match env.getLatestBlockhash with
          | .error e =>
            (error_response (Error.recentHashFailed e).toMessage, [.getLatestBlockhash])
          | .ok recentHash =>
            let signed := txSign tx keypair recentHash
            match env.sendTransaction signed with
            | .error e =>
              (error_response (Error.sendTransactionFailed e).toMessage,
               [.getLatestBlockhash, .sendTransaction signed])
            | .ok sig =>
              match env.confirmTransaction sig recentHash with
              | .error e =>
                (error_response (Error.confirmingTransactionFailed e).toMessage,
                 [.getLatestBlockhash, .sendTransaction signed,
                  .confirmTransaction sig recentHash])
              | .ok _ =>
                (success_response (transactionIdJson sig),
                 [.getLatestBlockhash, .sendTransaction signed,
                  .confirmTransaction sig recentHash])

/-- `spl_agg_send_step_two` (`src/main.rs:493-560`): decode every field in
source order, run the SPL round 2; no RPC call on any path. -/
def spl_agg_send_step_two (req : SplAggSendStepTwoRequest) : Response × List RpcCall :=
  match parse_keypair_bs58 req.keypair with
  | .error e => (error_response e.toMessage, [])
  | .ok keypair =>
    match parse_pubkey req.toAddr with
    | .error e => (error_response e.toMessage, [])
    | .ok toKey =>
      match parse_pubkey req.tokenMint with
      | .error e => (error_response e.toMessage, [])
      | .ok tokenMint =>
        match parse_hash req.recentBlockHash with
        | .error e => (error_response e.toMessage, [])
        | .ok blockHash =>
          match req.keys.mapM parse_pubkey with
          | .error e => (error_response e.toMessage, [])
          | .ok keys =>
            match req.firstMessages.mapM AggMessage1.deserialize_bs58 with
            | .error e => (error_response e.toMessage, [])
            | .ok firstMessages =>
              match SecretAggStepOne.deserialize_bs58 req.secretState with
              | .error e => (error_response e.toMessage, [])
              | .ok secretState =>
                match spl_step_two keypair req.amount toKey tokenMint req.decimals
                    req.memo blockHash keys firstMessages secretState with
                | .error e => (error_response e.toMessage, [])
                | .ok sig =>
                  (success_response (partialSignatureJson sig.serialize_bs58), [])

/-- `spl_aggregate_signatures` (`src/main.rs:562-629`): decode every field
in source order, assemble the SPL transaction, then broadcast and
confirm. -/
def spl_aggregate_signatures (req : SplAggregateSignaturesRequest) (env : RpcEnv) :
    Response × List RpcCall :=
  match parse_pubkey req.toAddr with
  | .error e => (error_response e.toMessage, [])
  | .ok toKey =>
    match parse_pubkey req.tokenMint with
    | .error e => (error_response e.toMessage, [])
    | .ok tokenMint =>
      match parse_hash req.recentBlockHash with
      | .error e => (error_response e.toMessage, [])
      | .ok blockHash =>
        match req.keys.mapM parse_pubkey with
        | .error e => (error_response e.toMessage, [])
        | .ok keys =>
          match req.signatures.mapM PartialSignature.deserialize_bs58 with
          | .error e => (error_response e.toMessage, [])
          | .ok signatures =>
            match spl_sign_and_broadcast req.amount toKey tokenMint req.decimals
                req.memo blockHash keys signatures with
            | .error e => (error_response e.toMessage, [])
            | .ok tx =>
              match env.sendTransaction tx with
              | .error e =>
                (error_response (Error.sendTransactionFailed e).toMessage,
                 [.sendTransaction tx])
              | .ok sig =>
                match env.confirmTransaction sig blockHash with
                | .error e =>
                  (error_response (Error.confirmingTransactionFailed e).toMessage,
                   [.sendTransaction tx, .confirmTransaction sig blockHash])
                | .ok _ =>
                  (success_response (transactionIdJson sig),
                   [.sendTransaction tx, .confirmTransaction sig blockHash])

/-! ## Shared concrete values for witnesses -/

/-- A 32-byte key filled with one byte value. -/
def samplePk (b : Nat) : Pubkey := List.replicate 32 b

/-- The binary64 value `1.5` (= `3·2⁻¹`, exact). -/
def f64OnePointFive : F64 := .finite false 3 (-1)

/-! ## C7 — the network URL map -/

/-- C7: `get_cluster_url` is a total function on `Network` — the three
variants exhaust the type and map to three fixed, pairwise-distinct URLs;
the function takes no input besides the `Network` value, so no environment
variable or persisted state can influence the selection. -/
theorem cluster_url_total_fixed_distinct :
    (∀ n : Network, n = .mainnet ∨ n = .testnet ∨ n = .devnet) ∧
    Network.get_cluster_url .mainnet = "https://api.mainnet-beta.solana.com" ∧
    Network.get_cluster_url .testnet = "https://api.testnet.solana.com" ∧
    Network.get_cluster_url .devnet = "https://api.devnet.solana.com" ∧
    Network.get_cluster_url .mainnet ≠ Network.get_cluster_url .testnet ∧
    Network.get_cluster_url .mainnet ≠ Network.get_cluster_url .devnet ∧
    Network.get_cluster_url .testnet ≠ Network.get_cluster_url .devnet := by
  refine ⟨fun n => ?_, rfl, rfl, rfl, by decide, by decide, by decide⟩
  cases n
  · exact Or.inl rfl
  · exact Or.inr (Or.inl rfl)
  · exact Or.inr (Or.inr rfl)

/-! ## C6 — the error response shape -/

/-- C6: for every error message, `error_response` produces HTTP status 400
with body exactly the single-field JSON object `{"error": "<message>"}`
(`serde_json` escaping applied to the message); every handler error path,
core or RPC, goes through this one constructor, so the shape is uniform. -/
theorem error_response_is_400_single_field (msg : String) :
    (error_response msg).status = 400 ∧
    (error_response msg).contentType = "application/json" ∧
    (error_response msg).body = "\x7b\"error\":\"" ++ escapeJson msg ++ "\"\x7d" := by
  refine ⟨rfl, rfl, ?_⟩
  show "\x7b\"error\":" ++ ("\"" ++ escapeJson msg ++ "\"") ++ "\x7d"
      = "\x7b\"error\":\"" ++ escapeJson msg ++ "\"\x7d"
  have h₁ : ("\x7b\"error\":" ++ "\"" : String) = "\x7b\"error\":\"" := rfl
  have h₂ : ("\"" ++ "\x7d" : String) = "\"\x7d" := rfl
  rw [← String.append_assoc, ← String.append_assoc, String.append_assoc, h₁, h₂]

/-! ## C10 — indistinguishable parse errors -/

/-- C10: every failure of `parse_pubkey` or `parse_hash`, whatever its
actual cause, returns the one fixed value
`BadBase58(InvalidCharacter { character: ' ', index: 0 })`: both parsers
`map_err` every underlying `from_str` error to this constant. -/
theorem parse_errors_are_constant (s : String) :
    (∀ e, parse_pubkey s = .error e → e = .badBase58 (.invalidCharacter ' ' 0)) ∧
    (∀ e, parse_hash s = .error e → e = .badBase58 (.invalidCharacter ' ' 0)) := by
  constructor
  · intro e h
    unfold parse_pubkey at h
    cases hp : pubkeyFromStr s <;> rw [hp] at h <;>
      simp [Except.mapError] at h
    exact h.symm
  · intro e h
    unfold parse_hash at h
    cases hp : hashFromStr s <;> rw [hp] at h <;>
      simp [Except.mapError] at h
    exact h.symm

/-- Witness for C10: the string `"0"` is not base58 (the digit zero is
outside the alphabet), and both parsers reject it with the fixed error. -/
theorem parse_errors_are_constant_witness :
    parse_pubkey "0" = .error (.badBase58 (.invalidCharacter ' ' 0)) ∧
    parse_hash "0" = .error (.badBase58 (.invalidCharacter ' ' 0)) ∧
    Error.badBase58 (.invalidCharacter ' ' 0) = .badBase58 (.invalidCharacter ' ' 0) := by
  have h₁ : parse_pubkey "0" = .error (.badBase58 (.invalidCharacter ' ' 0)) := by decide
  have h₂ : parse_hash "0" = .error (.badBase58 (.invalidCharacter ' ' 0)) := by decide
  exact ⟨h₁, h₂, (parse_errors_are_constant "0").1 _ h₁⟩

/-! ## C5 — determinism of the payload canonicalizer -/

/-- C5: `create_unsigned_transaction` is a pure function of exactly
`(amount, to, memo, payer)` — two invocations on equal inputs yield
bit-identical serialized unsigned messages (and identical transactions);
there is no other input in its signature for the result to depend on. -/
theorem create_unsigned_transaction_deterministic
    (a₁ a₂ : F64) (to₁ to₂ : Pubkey) (m₁ m₂ : Option String) (p₁ p₂ : Pubkey)
    (ha : a₁ = a₂) (ht : to₁ = to₂) (hm : m₁ = m₂) (hp : p₁ = p₂) :
    serializeMessage (create_unsigned_transaction a₁ to₁ m₁ p₁).message =
      serializeMessage (create_unsigned_transaction a₂ to₂ m₂ p₂).message ∧
    create_unsigned_transaction a₁ to₁ m₁ p₁ =
      create_unsigned_transaction a₂ to₂ m₂ p₂ := by
  subst ha ht hm hp
  exact ⟨rfl, rfl⟩

/-- Witness for C5 at a concrete input (amount 1.5 SOL, memo "hello"). -/
theorem create_unsigned_transaction_deterministic_witness :
    f64OnePointFive = f64OnePointFive ∧ samplePk 7 = samplePk 7 ∧
    (some "hello" : Option String) = some "hello" ∧ samplePk 9 = samplePk 9 ∧
    serializeMessage
        (create_unsigned_transaction f64OnePointFive (samplePk 7)
          (some "hello") (samplePk 9)).message =
      serializeMessage
        (create_unsigned_transaction f64OnePointFive (samplePk 7)
          (some "hello") (samplePk 9)).message :=
  ⟨rfl, rfl, rfl, rfl,
    (create_unsigned_transaction_deterministic _ _ _ _ _ _ _ _ rfl rfl rfl rfl).1⟩

/-! ## C8 — keypair generation uses only the CSPRNG -/

/-- C8: `generate_keypair` accepts no request input — its only argument
besides the implicit unit route is the OS CSPRNG draw — and its response
is a function of that draw alone: equal randomness gives equal responses,
the seed is taken verbatim from the CSPRNG bytes, and no RPC call is
made. -/
theorem generate_keypair_csprng_only (rng₁ rng₂ : List Nat) (h : rng₁ = rng₂) :
    generate_keypair rng₁ = generate_keypair rng₂ ∧
    (generate_keypair rng₁).2 = [] ∧
    (keypairGenerate rng₁).secret = rng₁.take 32 ∧
    (generate_keypair rng₁).1 = success_response (generateKeypairJson
        (bs58Encode ((keypairGenerate rng₁).secret ++ (keypairGenerate rng₁).pubkey))
        (bs58Encode (keypairGenerate rng₁).pubkey)) := by
  subst h
  exact ⟨rfl, rfl, rfl, rfl⟩

/-- Witness for C8 at a concrete CSPRNG draw. -/
theorem generate_keypair_csprng_only_witness :
    List.replicate 32 5 = List.replicate 32 5 ∧
    (generate_keypair (List.replicate 32 5)).2 = [] :=
  ⟨rfl, (generate_keypair_csprng_only (List.replicate 32 5) (List.replicate 32 5) rfl).2.1⟩

/-! ## C4 — token amount scaling -/

set_option maxRecDepth 100000 in
/-- C4 counterexample: at the representable amount `a = fl(8.7) =
4897664594765414·2⁻⁴⁹` and `decimals = 1`, the code's scaling
`(a * 10_f64.powi(1)) as u64` rounds the product up to `87.0` and places
`87` units in the checked-transfer instruction data, while the exact
product satisfies `86·2⁴⁹ ≤ a·2⁴⁹·10 < 87·2⁴⁹`, i.e. `⌊a·10¹⌋ = 86` —
so the placed amount is not `⌊a·10^d⌋` rounded toward zero. -/
theorem spl_amount_not_exact_floor_counterexample :
    splTokenAmount (.finite false 4897664594765414 (-49)) 1 = 87 ∧
    86 * 2 ^ 49 ≤ 4897664594765414 * 10 ∧
    4897664594765414 * 10 < 87 * 2 ^ 49 ∧
    (create_spl_token_transaction (splTokenAmount (.finite false 4897664594765414 (-49)) 1)
        (samplePk 1) (samplePk 7) (samplePk 8) (samplePk 1) none 1).map
        (fun tx => (tx.message.instructions.get? 1).map (·.data)) =
      .ok (some (transferCheckedData 87 1)) := by
  exact ⟨by decide, by decide, by decide, by decide⟩

set_option maxRecDepth 100000 in
/-- C4 (amended): the amount placed in the token-program instruction data
equals the saturating-truncating `u64` cast of the double-precision
product `fl(a · fl(10^d))` — rounding toward zero applies to that product,
not to the exact real `a·10^d`; when the product is exact the two agree,
and in particular with `decimals = 6` and `amount = 1.5` the instruction
data contains `1_500_000`. -/
theorem spl_amount_scaling_amended (a : F64) (d : Nat) (fromKey toKey mint payer : Pubkey)
    (memo : Option String) (h : toKey ≠ payer) :
    (create_spl_token_transaction (splTokenAmount a d) fromKey toKey mint payer memo d).map
        (fun tx => (tx.message.instructions.get? 1).map (·.data)) =
      .ok (some (transferCheckedData (splTokenAmount a d) d)) ∧
    splTokenAmount a d = (a.mul (F64.powi (F64.ofNat 10) d)).toU64 ∧
    splTokenAmount f64OnePointFive 6 = 1500000 := by
  refine ⟨?_, rfl, by decide⟩
  unfold create_spl_token_transaction
  rw [if_neg h]
  cases memo <;> rfl

set_option maxRecDepth 100000 in
/-- Witness for C4's amended theorem at a concrete input. -/
theorem spl_amount_scaling_amended_witness :
    (samplePk 7 : Pubkey) ≠ samplePk 9 ∧ splTokenAmount f64OnePointFive 6 = 1500000 := by
  have h : (samplePk 7 : Pubkey) ≠ samplePk 9 := by decide
  exact ⟨h, (spl_amount_scaling_amended f64OnePointFive 6 (samplePk 1) (samplePk 7)
    (samplePk 8) (samplePk 9) none h).2.2⟩

/-! ## C3 — construction never fails on the native path -/

set_option maxRecDepth 100000 in
/-- C3 counterexample: at an input violating two of the claimed failure
conditions at once — amount `2⁷⁰` SOL, whose lamport scaling exceeds
`u64` (the cast saturates to `u64::MAX` instead of failing), and a
1300-byte memo exceeding the 1232-byte transaction size limit —
`create_unsigned_transaction` still succeeds: its return type has no
failure path, and it produces the transfer-plus-memo transaction. -/
theorem construction_never_fails_counterexample :
    solToLamports (.finite false 4503599627370496 18) = 2 ^ 64 - 1 ∧
    1232 < (utf8Bytes (String.mk (List.replicate 1300 'a'))).length ∧
    (create_unsigned_transaction (.finite false 4503599627370496 18) (samplePk 7)
        (some (String.mk (List.replicate 1300 'a')))
        (samplePk 9)).message.instructions.length = 2 ∧
    ((create_unsigned_transaction (.finite false 4503599627370496 18) (samplePk 7)
        (some (String.mk (List.replicate 1300 'a')))
        (samplePk 9)).message.instructions.map (·.data)).get? 0 =
      some (transferData (2 ^ 64 - 1)) := by
  exact ⟨by decide, by decide, by decide, by decide⟩

/-- C3 (amended): transaction construction never fails with
`PayloadError` on the native path — the builder is total, an amount whose
scaling exceeds `u64` saturates at `u64::MAX`, and the memo size is not
checked — while the token builder (source absent; modelled from the spec)
fails exactly when the recipient equals the fee payer. -/
theorem construction_total_amended (a : F64) (toKey : Pubkey) (memo : Option String)
    (payer : Pubkey) (tokenAmount decimals : Nat) (fromKey mint : Pubkey) :
    (create_unsigned_transaction a toKey memo payer).message.instructions.length =
      (if memo.isSome then 2 else 1) ∧
    ((create_unsigned_transaction a toKey memo payer).message.instructions.map
        (·.data)).get? 0 = some (transferData (solToLamports a)) ∧
    (create_spl_token_transaction tokenAmount fromKey toKey mint payer memo
        decimals).isOk = !decide (toKey = payer) := by
  refine ⟨by cases memo <;> rfl, by cases memo <;> rfl, ?_⟩
  by_cases h : toKey = payer
  · unfold create_spl_token_transaction
    rw [if_pos h]
    simp [h, Except.isOk, Except.toBool]
  · unfold create_spl_token_transaction
    rw [if_neg h]
    simp [h, Except.isOk, Except.toBool]

/-! ## C2 — aggregation order-independence -/

/-- C2 (spec-modelled: `tss.rs` is absent): `key_agg` is invariant under
permutation of the participant list — the duplicate check is a multiset
property, the hash input `L` is the concatenation of the lexicographically
sorted keys, and the formal sum `Σᵢ aᵢ·Xᵢ` is enumerated in that same
sorted order, so any permutation of the input yields the same aggregated
key. -/
theorem key_agg_order_independent (ks₁ ks₂ : List Pubkey) (h : ks₁.Perm ks₂) :
    key_agg ks₁ = key_agg ks₂ := by
  unfold key_agg
  have hsort : List.insertionSort LexLeP ks₁ = List.insertionSort LexLeP ks₂ :=
    List.eq_of_perm_of_sorted
      ((List.perm_insertionSort _ _).trans (h.trans (List.perm_insertionSort _ _).symm))
      (List.sorted_insertionSort _ _) (List.sorted_insertionSort _ _)
  by_cases h₁ : ks₁.Nodup
  · rw [if_neg (by simpa using h₁), if_neg (by simpa using h.nodup_iff.1 h₁), hsort]
  · rw [if_pos (by simpa using h₁),
      if_pos (by simpa using fun hn => h₁ (h.nodup_iff.2 hn))]

/-- Witness for C2: swapping two concrete participant keys leaves the
aggregated key unchanged. -/
theorem key_agg_order_independent_witness :
    List.Perm [samplePk 1, samplePk 2] [samplePk 2, samplePk 1] ∧
    key_agg [samplePk 1, samplePk 2] = key_agg [samplePk 2, samplePk 1] := by
  have h : List.Perm [samplePk 1, samplePk 2] [samplePk 2, samplePk 1] := by decide
  exact ⟨h, key_agg_order_independent _ _ h⟩

/-! ## C1 — shape of the unsigned transfer transaction -/

theorem payer_mem_accountKeysFor (ixs : List Instruction) (payer : Pubkey) :
    payer ∈ accountKeysFor ixs payer :=
  List.mem_cons_self _ _

/-- Every key mentioned by an instruction ends up in the compiled static
key list: it lands in the partition selected by its signer/writable
flags (or is the payer itself). -/
theorem mem_accountKeysFor {ixs : List Instruction} {payer k : Pubkey}
    (h : k ∈ mentionedKeys ixs) : k ∈ accountKeysFor ixs payer := by
  by_cases hp : k = payer
  · rw [hp]; exact payer_mem_accountKeysFor ixs payer
  · have hrest : k ∈ compiledRest ixs payer := by
      unfold compiledRest sortedKeySet
      rw [List.mem_filter, (List.perm_insertionSort LexLeP _).mem_iff, List.mem_dedup]
      exact ⟨List.mem_cons_of_mem _ h, by simp [hp]⟩
    unfold accountKeysFor
    rw [List.mem_cons]
    right
    rw [List.mem_append, List.mem_append, List.mem_append]
    cases hs : keyIsSigner ixs k <;> cases hw : keyIsWritable ixs k
    · refine Or.inr ?_
      unfold rnKeys
      rw [List.mem_filter]
      exact ⟨hrest, by simp [hs, hw]⟩
    · refine Or.inl (Or.inr ?_)
      unfold wnKeys
      rw [List.mem_filter]
      exact ⟨hrest, by simp [hs, hw]⟩
    · refine Or.inl (Or.inl (Or.inr ?_))
      unfold rsKeys
      rw [List.mem_filter]
      exact ⟨hrest, by simp [hs, hw]⟩
    · refine Or.inl (Or.inl (Or.inl ?_))
      unfold wsKeys
      rw [List.mem_filter]
      exact ⟨hrest, by simp [hs, hw]⟩

/-- `getElem?` after `indexOf` recovers a member element (stated for the
`BEq` instance the compiler picked inside `compileIx`). -/
theorem getElem?_indexOf_beq {α : Type} [BEq α] [LawfulBEq α] :
    ∀ {l : List α} {k : α}, k ∈ l → l[List.indexOf k l]? = some k := by
  intro l k h
  induction l with
  | nil => cases h
  | cons a l ih =>
    show (a :: l)[List.findIdx (· == k) (a :: l)]? = some k
    rw [List.findIdx_cons]
    by_cases hak : a = k
    · subst hak
      simp
    · have hb : (a == k) = false := by
        simp only [beq_eq_false_iff_ne, ne_eq]
        exact hak
      rw [hb]
      show (a :: l)[List.findIdx (· == k) l + 1]? = some k
      rw [List.getElem?_cons_succ]
      have hk : k ∈ l := by
        rcases List.mem_cons.mp h with rfl | hmem
        · exact absurd rfl hak
        · exact hmem
      exact ih hk

/-- Index resolution: looking a member key back up by its compiled index
returns the key. -/
theorem accountKeysFor_resolve {ixs : List Instruction} {payer k : Pubkey}
    (h : k ∈ accountKeysFor ixs payer) :
    (accountKeysFor ixs payer)[List.indexOf k (accountKeysFor ixs payer)]? = some k :=
  getElem?_indexOf_beq h

/-- C1: for every input, `create_unsigned_transaction` yields an unsigned
transaction whose message has the payer as fee payer (first static key),
whose first compiled instruction resolves to the system program with
accounts `(from = payer, to = recipient)` and data the transfer opcode
with `lamports = sol_to_lamports(amount)`; with a memo, exactly one
further instruction carries the memo program id, no accounts and the raw
UTF-8 memo bytes; without one, the transfer is alone. -/
theorem create_unsigned_transaction_payload (a : F64) (toKey : Pubkey)
    (memo : Option String) (payer : Pubkey) :
    (create_unsigned_transaction a toKey memo payer).message.accountKeys.head? = some payer
    ∧ (∃ ci,
        (create_unsigned_transaction a toKey memo payer).message.instructions.head? = some ci
        ∧ (create_unsigned_transaction a toKey memo payer).message.accountKeys[ci.programIdIndex]?
            = some systemProgramId
        ∧ ci.accounts.map
            (fun i => (create_unsigned_transaction a toKey memo payer).message.accountKeys[i]?)
            = [some payer, some toKey]
        ∧ ci.data = transferData (solToLamports a))
    ∧ (∀ m, memo = some m →
        (create_unsigned_transaction a toKey memo payer).message.instructions.length = 2
        ∧ ∃ ci,
          (create_unsigned_transaction a toKey memo payer).message.instructions.get? 1 = some ci
          ∧ (create_unsigned_transaction a toKey memo
              payer).message.accountKeys[ci.programIdIndex]? = some memoProgramId
          ∧ ci.accounts = [] ∧ ci.data = utf8Bytes m)
    ∧ (memo = none →
        (create_unsigned_transaction a toKey memo payer).message.instructions.length = 1) := by
  cases memo with
  | none =>
    refine ⟨rfl, ⟨_, rfl, ?_, ?_, rfl⟩, fun m hm => Option.noConfusion hm, fun _ => rfl⟩
    · exact accountKeysFor_resolve (mem_accountKeysFor (by
        simp [mentionedKeys, systemTransfer]))
    · show [(accountKeysFor _ payer)[List.indexOf payer (accountKeysFor _ payer)]?,
             (accountKeysFor _ payer)[List.indexOf toKey (accountKeysFor _ payer)]?]
          = [some payer, some toKey]
      rw [accountKeysFor_resolve (payer_mem_accountKeysFor _ payer),
        accountKeysFor_resolve (mem_accountKeysFor (by
          simp [mentionedKeys, systemTransfer]))]
  | some m =>
    refine ⟨rfl, ⟨_, rfl, ?_, ?_, rfl⟩, fun m₂ hm => ?_, fun hm => Option.noConfusion hm⟩
    · exact accountKeysFor_resolve (mem_accountKeysFor (by
        simp [mentionedKeys, systemTransfer]))
    · show [(accountKeysFor _ payer)[List.indexOf payer (accountKeysFor _ payer)]?,
             (accountKeysFor _ payer)[List.indexOf toKey (accountKeysFor _ payer)]?]
          = [some payer, some toKey]
      rw [accountKeysFor_resolve (payer_mem_accountKeysFor _ payer),
        accountKeysFor_resolve (mem_accountKeysFor (by
          simp [mentionedKeys, systemTransfer]))]
    · obtain rfl : m₂ = m := by injection hm with h; exact h.symm
      refine ⟨rfl, _, rfl, ?_, rfl, rfl⟩
      exact accountKeysFor_resolve (mem_accountKeysFor (by
        simp [mentionedKeys, systemTransfer]))

/-- Witness for C1 at a concrete memo-carrying input. -/
theorem create_unsigned_transaction_payload_witness :
    (some "hello" : Option String) = some "hello" ∧
    (create_unsigned_transaction f64OnePointFive (samplePk 7) (some "hello")
        (samplePk 9)).message.instructions.length = 2 :=
  ⟨rfl, ((create_unsigned_transaction_payload f64OnePointFive (samplePk 7) (some "hello")
    (samplePk 9)).2.2.1 "hello" rfl).1⟩

/-! ## C9 — all request decoding precedes any RPC effect

One decode-phase function per handler, composing the handler's field
parsers in source order (the composition fails with exactly the error of
the first failing field). -/

def balanceDecode (req : BalanceRequest) : Except Error Pubkey :=
  parse_pubkey req.address

def airdropDecode (req : AirdropRequest) : Except Error Pubkey :=
  parse_pubkey req.toAddr

def sendSingleDecode (req : SendSingleRequest) : Except Error (Keypair × Pubkey) :=
  match parse_keypair_bs58 req.keypair with
  | .error e => .error e
  | .ok keypair =>
    match parse_pubkey req.toAddr with
    | .error e => .error e
    | .ok toKey => .ok (keypair, toKey)

def aggregateKeysDecode (req : AggregateKeysRequest) : Except Error (List Pubkey) :=
  req.keys.mapM parse_pubkey

def aggSendStepOneDecode (req : AggSendStepOneRequest) : Except Error Keypair :=
  parse_keypair_bs58 req.keypair

def aggSendStepTwoDecode (req : AggSendStepTwoRequest) :
    Except Error (Keypair × Pubkey × List Nat × List Pubkey × List AggMessage1
      × SecretAggStepOne) :=
  match parse_keypair_bs58 req.keypair with
  | .error e => .error e
  | .ok keypair =>
    match parse_pubkey req.toAddr with
    | .error e => .error e
    | .ok toKey =>
      match parse_hash req.recentBlockHash with
      | .error e => .error e
      | .ok blockHash =>
        match req.keys.mapM parse_pubkey with
        | .error e => .error e
        | .ok keys =>
          match req.firstMessages.mapM AggMessage1.deserialize_bs58 with
          | .error e => .error e
          | .ok firstMessages =>
            match SecretAggStepOne.deserialize_bs58 req.secretState with
            | .error e => .error e
            | .ok secretState => .ok (keypair, toKey, blockHash, keys, firstMessages, secretState)

def aggregateSignaturesDecode (req : AggregateSignaturesRequest) :
    Except Error (Pubkey × List Nat × List Pubkey × List PartialSignature) :=
  match parse_pubkey req.toAddr with
  | .error e => .error e
  | .ok toKey =>
    match parse_hash req.recentBlockHash with
    | .error e => .error e
    | .ok blockHash =>
      match req.keys.mapM parse_pubkey with
      | .error e => .error e
      | .ok keys =>
        match req.signatures.mapM PartialSignature.deserialize_bs58 with
        | .error e => .error e
        | .ok signatures => .ok (toKey, blockHash, keys, signatures)

def splTokenBalanceDecode (req : SplTokenBalanceRequest) : Except Error (Pubkey × Pubkey) :=
  match parse_pubkey req.owner with
  | .error e => .error e
  | .ok owner =>
    match parse_pubkey req.tokenMint with
    | .error e => .error e
    | .ok tokenMint => .ok (owner, tokenMint)

def splSendSingleDecode (req : SplSendSingleRequest) :
    Except Error (Keypair × Pubkey × Pubkey) :=
  match parse_keypair_bs58 req.keypair with
  | .error e => .error e
  | .ok keypair =>
    match parse_pubkey req.toAddr with
    | .error e => .error e
    | .ok toKey =>
      match parse_pubkey req.tokenMint with
      | .error e => .error e
      | .ok tokenMint => .ok (keypair, toKey, tokenMint)

def splAggSendStepTwoDecode (req : SplAggSendStepTwoRequest) :
    Except Error (Keypair × Pubkey × Pubkey × List Nat × List Pubkey × List AggMessage1
      × SecretAggStepOne) :=
  match parse_keypair_bs58 req.keypair with
  | .error e => .error e
  | .ok keypair =>
    match parse_pubkey req.toAddr with
    | .error e => .error e
    | .ok toKey =>
      match parse_pubkey req.tokenMint with
      | .error e => .error e
      | .ok tokenMint =>
        match parse_hash req.recentBlockHash with
        | .error e => .error e
        | .ok blockHash =>
          match req.keys.mapM parse_pubkey with
          | .error e => .error e
          | .ok keys =>
            match req.firstMessages.mapM AggMessage1.deserialize_bs58 with
            | .error e => .error e
            | .ok firstMessages =>
              match SecretAggStepOne.deserialize_bs58 req.secretState with
              | .error e => .error e
              | .ok secretState =>
                .ok (keypair, toKey, tokenMint, blockHash, keys, firstMessages, secretState)

def splAggregateSignaturesDecode (req : SplAggregateSignaturesRequest) :
    Except Error (Pubkey × Pubkey × List Nat × List Pubkey × List PartialSignature) :=
  match parse_pubkey req.toAddr with
  | .error e => .error e
  | .ok toKey =>
    match parse_pubkey req.tokenMint with
    | .error e => .error e
    | .ok tokenMint =>
      match parse_hash req.recentBlockHash with
      | .error e => .error e
      | .ok blockHash =>
        match req.keys.mapM parse_pubkey with
        | .error e => .error e
        | .ok keys =>
          match req.signatures.mapM PartialSignature.deserialize_bs58 with
          | .error e => .error e
          | .ok signatures => .ok (toKey, tokenMint, blockHash, keys, signatures)

theorem balance_decode_no_rpc (req : BalanceRequest) (env : RpcEnv) (e : Error)
    (h : balanceDecode req = .error e) :
    balance req env = (error_response e.toMessage, []) := by
  unfold balance
  unfold balanceDecode at h
  cases h1 : parse_pubkey req.address with
  | error e₁ => simp only [h1] at h ⊢; injection h with h; subst h; rfl
  | ok a1 =>
    rw [h1] at h
    exact Except.noConfusion h

theorem airdrop_decode_no_rpc (req : AirdropRequest) (env : RpcEnv) (e : Error)
    (h : airdropDecode req = .error e) :
    airdrop req env = (error_response e.toMessage, []) := by
  unfold airdrop
  unfold airdropDecode at h
  cases h1 : parse_pubkey req.toAddr with
  | error e₁ => simp only [h1] at h ⊢; injection h with h; subst h; rfl
  | ok a1 =>
    rw [h1] at h
    exact Except.noConfusion h

theorem send_single_decode_no_rpc (req : SendSingleRequest) (env : RpcEnv) (e : Error)
    (h : sendSingleDecode req = .error e) :
    send_single req env = (error_response e.toMessage, []) := by
  unfold send_single
  unfold sendSingleDecode at h
  cases h1 : parse_keypair_bs58 req.keypair with
  | error e₁ => simp only [h1] at h ⊢; injection h with h; subst h; rfl
  | ok a1 =>
  simp only [h1] at h ⊢
  cases h2 : parse_pubkey req.toAddr with
  | error e₁ => simp only [h2] at h ⊢; injection h with h; subst h; rfl
  | ok a2 =>
    rw [h2] at h
    exact Except.noConfusion h

theorem aggregate_keys_decode_no_rpc (req : AggregateKeysRequest) (e : Error)
    (h : aggregateKeysDecode req = .error e) :
    aggregate_keys req = (error_response e.toMessage, []) := by
  unfold aggregate_keys
  unfold aggregateKeysDecode at h
  cases h1 : req.keys.mapM parse_pubkey with
  | error e₁ => simp only [h1] at h ⊢; injection h with h; subst h; rfl
  | ok a1 =>
    rw [h1] at h
    exact Except.noConfusion h

theorem agg_send_step_one_decode_no_rpc (req : AggSendStepOneRequest) (rng : Nat × Nat) (e : Error)
    (h : aggSendStepOneDecode req = .error e) :
    agg_send_step_one req rng = (error_response e.toMessage, []) := by
  unfold agg_send_step_one
  unfold aggSendStepOneDecode at h
  cases h1 : parse_keypair_bs58 req.keypair with
  | error e₁ => simp only [h1] at h ⊢; injection h with h; subst h; rfl
  | ok a1 =>
    rw [h1] at h
    exact Except.noConfusion h

theorem agg_send_step_two_decode_no_rpc (req : AggSendStepTwoRequest) (e : Error)
    (h : aggSendStepTwoDecode req = .error e) :
    agg_send_step_two req = (error_response e.toMessage, []) := by
  unfold agg_send_step_two
  unfold aggSendStepTwoDecode at h
  cases h1 : parse_keypair_bs58 req.keypair with
  | error e₁ => simp only [h1] at h ⊢; injection h with h; subst h; rfl
  | ok a1 =>
  simp only [h1] at h ⊢
  cases h2 : parse_pubkey req.toAddr with
  | error e₁ => simp only [h2] at h ⊢; injection h with h; subst h; rfl
  | ok a2 =>
  simp only [h2] at h ⊢
  cases h3 : parse_hash req.recentBlockHash with
  | error e₁ => simp only [h3] at h ⊢; injection h with h; subst h; rfl
  | ok a3 =>
  simp only [h3] at h ⊢
  cases h4 : req.keys.mapM parse_pubkey with
  | error e₁ => simp only [h4] at h ⊢; injection h with h; subst h; rfl
  | ok a4 =>
  simp only [h4] at h ⊢
  cases h5 : req.firstMessages.mapM AggMessage1.deserialize_bs58 with
  | error e₁ => simp only [h5] at h ⊢; injection h with h; subst h; rfl
  | ok a5 =>
  simp only [h5] at h ⊢
  cases h6 : SecretAggStepOne.deserialize_bs58 req.secretState with
  | error e₁ => simp only [h6] at h ⊢; injection h with h; subst h; rfl
  | ok a6 =>
    rw [h6] at h
    exact Except.noConfusion h

theorem aggregate_signatures_decode_no_rpc (req : AggregateSignaturesRequest) (env : RpcEnv) (e : Error)
    (h : aggregateSignaturesDecode req = .error e) :
    aggregate_signatures req env = (error_response e.toMessage, []) := by
  unfold aggregate_signatures
  unfold aggregateSignaturesDecode at h
  cases h1 : parse_pubkey req.toAddr with
  | error e₁ => simp only [h1] at h ⊢; injection h with h; subst h; rfl
  | ok a1 =>
  simp only [h1] at h ⊢
  cases h2 : parse_hash req.recentBlockHash with
  | error e₁ => simp only [h2] at h ⊢; injection h with h; subst h; rfl
  | ok a2 =>
  simp only [h2] at h ⊢
  cases h3 : req.keys.mapM parse_pubkey with
  | error e₁ => simp only [h3] at h ⊢; injection h with h; subst h; rfl
  | ok a3 =>
  simp only [h3] at h ⊢
  cases h4 : req.signatures.mapM PartialSignature.deserialize_bs58 with
  | error e₁ => simp only [h4] at h ⊢; injection h with h; subst h; rfl
  | ok a4 =>
    rw [h4] at h
    exact Except.noConfusion h

theorem spl_token_balance_decode_no_rpc (req : SplTokenBalanceRequest) (env : RpcEnv) (e : Error)
    (h : splTokenBalanceDecode req = .error e) :
    spl_token_balance req env = (error_response e.toMessage, []) := by
  unfold spl_token_balance
  unfold splTokenBalanceDecode at h
  cases h1 : parse_pubkey req.owner with
  | error e₁ => simp only [h1] at h ⊢; injection h with h; subst h; rfl
  | ok a1 =>
  simp only [h1] at h ⊢
  cases h2 : parse_pubkey req.tokenMint with
  | error e₁ => simp only [h2] at h ⊢; injection h with h; subst h; rfl
  | ok a2 =>
    rw [h2] at h
    exact Except.noConfusion h

theorem spl_send_single_decode_no_rpc (req : SplSendSingleRequest) (env : RpcEnv) (e : Error)
    (h : splSendSingleDecode req = .error e) :
    spl_send_single req env = (error_response e.toMessage, []) := by
  unfold spl_send_single
  unfold splSendSingleDecode at h
  cases h1 : parse_keypair_bs58 req.keypair with
  | error e₁ => simp only [h1] at h ⊢; injection h with h; subst h; rfl
  | ok a1 =>
  simp only [h1] at h ⊢
  cases h2 : parse_pubkey req.toAddr with
  | error e₁ => simp only [h2] at h ⊢; injection h with h; subst h; rfl
  | ok a2 =>
  simp only [h2] at h ⊢
  cases h3 : parse_pubkey req.tokenMint with
  | error e₁ => simp only [h3] at h ⊢; injection h with h; subst h; rfl
  | ok a3 =>
    rw [h3] at h
    exact Except.noConfusion h

theorem spl_agg_send_step_two_decode_no_rpc (req : SplAggSendStepTwoRequest) (e : Error)
    (h : splAggSendStepTwoDecode req = .error e) :
    spl_agg_send_step_two req = (error_response e.toMessage, []) := by
  unfold spl_agg_send_step_two
  unfold splAggSendStepTwoDecode at h
  cases h1 : parse_keypair_bs58 req.keypair with
  | error e₁ => simp only [h1] at h ⊢; injection h with h; subst h; rfl
  | ok a1 =>
  simp only [h1] at h ⊢
  cases h2 : parse_pubkey req.toAddr with
  | error e₁ => simp only [h2] at h ⊢; injection h with h; subst h; rfl
  | ok a2 =>
  simp only [h2] at h ⊢
  cases h3 : parse_pubkey req.tokenMint with
  | error e₁ => simp only [h3] at h ⊢; injection h with h; subst h; rfl
  | ok a3 =>
  simp only [h3] at h ⊢
  cases h4 : parse_hash req.recentBlockHash with
  | error e₁ => simp only [h4] at h ⊢; injection h with h; subst h; rfl
  | ok a4 =>
  simp only [h4] at h ⊢
  cases h5 : req.keys.mapM parse_pubkey with
  | error e₁ => simp only [h5] at h ⊢; injection h with h; subst h; rfl
  | ok a5 =>
  simp only [h5] at h ⊢
  cases h6 : req.firstMessages.mapM AggMessage1.deserialize_bs58 with
  | error e₁ => simp only [h6] at h ⊢; injection h with h; subst h; rfl
  | ok a6 =>
  simp only [h6] at h ⊢
  cases h7 : SecretAggStepOne.deserialize_bs58 req.secretState with
  | error e₁ => simp only [h7] at h ⊢; injection h with h; subst h; rfl
  | ok a7 =>
    rw [h7] at h
    exact Except.noConfusion h

theorem spl_aggregate_signatures_decode_no_rpc (req : SplAggregateSignaturesRequest) (env : RpcEnv) (e : Error)
    (h : splAggregateSignaturesDecode req = .error e) :
    spl_aggregate_signatures req env = (error_response e.toMessage, []) := by
  unfold spl_aggregate_signatures
  unfold splAggregateSignaturesDecode at h
  cases h1 : parse_pubkey req.toAddr with
  | error e₁ => simp only [h1] at h ⊢; injection h with h; subst h; rfl
  | ok a1 =>
  simp only [h1] at h ⊢
  cases h2 : parse_pubkey req.tokenMint with
  | error e₁ => simp only [h2] at h ⊢; injection h with h; subst h; rfl
  | ok a2 =>
  simp only [h2] at h ⊢
  cases h3 : parse_hash req.recentBlockHash with
  | error e₁ => simp only [h3] at h ⊢; injection h with h; subst h; rfl
  | ok a3 =>
  simp only [h3] at h ⊢
  cases h4 : req.keys.mapM parse_pubkey with
  | error e₁ => simp only [h4] at h ⊢; injection h with h; subst h; rfl
  | ok a4 =>
  simp only [h4] at h ⊢
  cases h5 : req.signatures.mapM PartialSignature.deserialize_bs58 with
  | error e₁ => simp only [h5] at h ⊢; injection h with h; subst h; rfl
  | ok a5 =>
    rw [h5] at h
    exact Except.noConfusion h

/-- C9: for every handler and every request whose decode phase fails
(keypair, address, recipient, mint, blockhash, participant keys, first
messages, partial signatures or secret state — the decode functions
compose the handler's parsers in source order and fail exactly when some
field fails), the handler returns the 400 error response for that decode
error, with an empty RPC log for every oracle: no RPC call is made and no
transaction is broadcast before validation completes. -/
theorem handlers_validate_before_rpc :
    (∀ req env e, balanceDecode req = .error e →
      balance req env = (error_response e.toMessage, []))
    ∧ (∀ req env e, airdropDecode req = .error e →
      airdrop req env = (error_response e.toMessage, []))
    ∧ (∀ req env e, sendSingleDecode req = .error e →
      send_single req env = (error_response e.toMessage, []))
    ∧ (∀ req e, aggregateKeysDecode req = .error e →
      aggregate_keys req = (error_response e.toMessage, []))
    ∧ (∀ req rng e, aggSendStepOneDecode req = .error e →
      agg_send_step_one req rng = (error_response e.toMessage, []))
    ∧ (∀ req e, aggSendStepTwoDecode req = .error e →
      agg_send_step_two req = (error_response e.toMessage, []))
    ∧ (∀ req env e, aggregateSignaturesDecode req = .error e →
      aggregate_signatures req env = (error_response e.toMessage, []))
    ∧ (∀ req env e, splTokenBalanceDecode req = .error e →
      spl_token_balance req env = (error_response e.toMessage, []))
    ∧ (∀ req env e, splSendSingleDecode req = .error e →
      spl_send_single req env = (error_response e.toMessage, []))
    ∧ (∀ req e, splAggSendStepTwoDecode req = .error e →
      spl_agg_send_step_two req = (error_response e.toMessage, []))
    ∧ (∀ req env e, splAggregateSignaturesDecode req = .error e →
      spl_aggregate_signatures req env = (error_response e.toMessage, [])) :=
  ⟨balance_decode_no_rpc, airdrop_decode_no_rpc, send_single_decode_no_rpc,
   aggregate_keys_decode_no_rpc, agg_send_step_one_decode_no_rpc,
   agg_send_step_two_decode_no_rpc, aggregate_signatures_decode_no_rpc,
   spl_token_balance_decode_no_rpc, spl_send_single_decode_no_rpc,
   spl_agg_send_step_two_decode_no_rpc, spl_aggregate_signatures_decode_no_rpc⟩

/-- An arbitrary concrete RPC oracle for the C9 witness. -/
def dummyEnv : RpcEnv :=
  { getBalance := fun _ => .ok 0
    requestAirdrop := fun _ _ => .ok "sig"
    getLatestBlockhash := .ok (List.replicate 32 0)
    sendTransaction := fun _ => .ok "sig"
    confirmTransaction := fun _ _ => .ok ()
    getAccount := fun _ => .ok [] }

/-- The constant error produced by `parse_pubkey`/`parse_hash`. -/
def fixedParseError : Error := .badBase58 (.invalidCharacter ' ' 0)

/-- The error `parse_keypair_bs58` reports on the input `"0"`. -/
def keypairZeroError : Error := .badBase58 (.invalidCharacter '0' 0)

/-- Witness for C9: concrete requests whose first field fails to decode,
one per handler; each handler answers with the 400 error response and an
empty RPC log. -/
theorem handlers_validate_before_rpc_witness :
    balanceDecode ⟨"0", .devnet⟩ = .error fixedParseError
    ∧ balance ⟨"0", .devnet⟩ dummyEnv = (error_response fixedParseError.toMessage, [])
    ∧ airdropDecode ⟨"0", f64OnePointFive, .devnet⟩ = .error fixedParseError
    ∧ airdrop ⟨"0", f64OnePointFive, .devnet⟩ dummyEnv
        = (error_response fixedParseError.toMessage, [])
    ∧ sendSingleDecode ⟨"0", f64OnePointFive, "t", .devnet, none⟩ = .error keypairZeroError
    ∧ send_single ⟨"0", f64OnePointFive, "t", .devnet, none⟩ dummyEnv
        = (error_response keypairZeroError.toMessage, [])
    ∧ aggregateKeysDecode ⟨["0"]⟩ = .error fixedParseError
    ∧ aggregate_keys ⟨["0"]⟩ = (error_response fixedParseError.toMessage, [])
    ∧ aggSendStepOneDecode ⟨"0"⟩ = .error keypairZeroError
    ∧ agg_send_step_one ⟨"0"⟩ (1, 2) = (error_response keypairZeroError.toMessage, [])
    ∧ aggSendStepTwoDecode ⟨"0", f64OnePointFive, "t", none, "h", [], [], "s"⟩
        = .error keypairZeroError
    ∧ agg_send_step_two ⟨"0", f64OnePointFive, "t", none, "h", [], [], "s"⟩
        = (error_response keypairZeroError.toMessage, [])
    ∧ aggregateSignaturesDecode ⟨[], f64OnePointFive, "0", none, "h", .devnet, []⟩
        = .error fixedParseError
    ∧ aggregate_signatures ⟨[], f64OnePointFive, "0", none, "h", .devnet, []⟩ dummyEnv
        = (error_response fixedParseError.toMessage, [])
    ∧ splTokenBalanceDecode ⟨"0", "m", .devnet⟩ = .error fixedParseError
    ∧ spl_token_balance ⟨"0", "m", .devnet⟩ dummyEnv
        = (error_response fixedParseError.toMessage, [])
    ∧ splSendSingleDecode ⟨"0", f64OnePointFive, "t", "m", 6, .devnet, none⟩
        = .error keypairZeroError
    ∧ spl_send_single ⟨"0", f64OnePointFive, "t", "m", 6, .devnet, none⟩ dummyEnv
        = (error_response keypairZeroError.toMessage, [])
    ∧ splAggSendStepTwoDecode ⟨"0", f64OnePointFive, "t", "m", 6, none, "h", [], [], "s"⟩
        = .error keypairZeroError
    ∧ spl_agg_send_step_two ⟨"0", f64OnePointFive, "t", "m", 6, none, "h", [], [], "s"⟩
        = (error_response keypairZeroError.toMessage, [])
    ∧ splAggregateSignaturesDecode ⟨[], f64OnePointFive, "0", "m", 6, none, "h", .devnet, []⟩
        = .error fixedParseError
    ∧ spl_aggregate_signatures ⟨[], f64OnePointFive, "0", "m", 6, none, "h", .devnet, []⟩
        dummyEnv = (error_response fixedParseError.toMessage, []) := by
  have h₁ : balanceDecode ⟨"0", .devnet⟩ = .error fixedParseError := by decide
  have h₂ : airdropDecode ⟨"0", f64OnePointFive, .devnet⟩ = .error fixedParseError := by
    decide
  have h₃ : sendSingleDecode ⟨"0", f64OnePointFive, "t", .devnet, none⟩
      = .error keypairZeroError := by decide
  have h₄ : aggregateKeysDecode ⟨["0"]⟩ = .error fixedParseError := by decide
  have h₅ : aggSendStepOneDecode ⟨"0"⟩ = .error keypairZeroError := by decide
  have h₆ : aggSendStepTwoDecode ⟨"0", f64OnePointFive, "t", none, "h", [], [], "s"⟩
      = .error keypairZeroError := rfl
  have h₇ : aggregateSignaturesDecode ⟨[], f64OnePointFive, "0", none, "h", .devnet, []⟩
      = .error fixedParseError := by decide
  have h₈ : splTokenBalanceDecode ⟨"0", "m", .devnet⟩ = .error fixedParseError := by decide
  have h₉ : splSendSingleDecode ⟨"0", f64OnePointFive, "t", "m", 6, .devnet, none⟩
      = .error keypairZeroError := by decide
  have h₁₀ : splAggSendStepTwoDecode ⟨"0", f64OnePointFive, "t", "m", 6, none, "h", [], [], "s"⟩
      = .error keypairZeroError := rfl
  have h₁₁ : splAggregateSignaturesDecode
      ⟨[], f64OnePointFive, "0", "m", 6, none, "h", .devnet, []⟩ = .error fixedParseError := rfl
  exact ⟨h₁, handlers_validate_before_rpc.1 _ dummyEnv _ h₁,
    h₂, handlers_validate_before_rpc.2.1 _ dummyEnv _ h₂,
    h₃, handlers_validate_before_rpc.2.2.1 _ dummyEnv _ h₃,
    h₄, handlers_validate_before_rpc.2.2.2.1 _ _ h₄,
    h₅, handlers_validate_before_rpc.2.2.2.2.1 _ (1, 2) _ h₅,
    h₆, handlers_validate_before_rpc.2.2.2.2.2.1 _ _ h₆,
    h₇, handlers_validate_before_rpc.2.2.2.2.2.2.1 _ dummyEnv _ h₇,
    h₈, handlers_validate_before_rpc.2.2.2.2.2.2.2.1 _ dummyEnv _ h₈,
    h₉, handlers_validate_before_rpc.2.2.2.2.2.2.2.2.1 _ dummyEnv _ h₉,
    h₁₀, handlers_validate_before_rpc.2.2.2.2.2.2.2.2.2.1 _ _ h₁₀,
    h₁₁, handlers_validate_before_rpc.2.2.2.2.2.2.2.2.2.2 _ dummyEnv _ h₁₁⟩

end SolanaTss
